import Mathlib

/-!
# Scheduling node: `pkg/controllers/provisioning/scheduling/node.go`

A shallow embedding of `Node`, `NewNode`, `Node.Add` and `Node.String`.

The file under study calls into packages whose code is not part of it
(`v1alpha5` requirements and taints, the `Topology` tracker, `cloudprovider`,
`resources`).  Their types are collected in `Types` and their operations in
`Collaborators`; every definition and theorem about `Node` is parametric in
both, so a result holds for every implementation of the collaborators.

Go pointers are replaced by explicit state passing:
* a `*Node` receiver becomes a `Node` value taken and returned;
* the shared `*Topology` held in `Node.topology` becomes a tracker state that
  is given to each call and returned by it (the pointer itself never changes);
* the package variable `nodeID` becomes a counter value given to `NewNode` and
  returned by it.

A node holds its provisioner as a value.  Where it matters which object a call
writes, `NewNodeRef` and `NodeRef.Add` repeat the two operations with the
provisioner behind a pointer into a `Heap`, and are shown to agree with the
operations on values.
-/

namespace Scheduling

/-! ## Kubernetes API values used by the file -/

/-- The struct `v1.NodeSelectorRequirement` of `k8s.io/api/core/v1`
(`NodeSelectorOperator` is a string type). -/
structure NodeSelectorRequirement where
  Key : String
  Operator : String
  Values : List String
deriving DecidableEq, Repr

/-- The constant `v1.LabelHostname` of `k8s.io/api/core/v1`. -/
def LabelHostname : String := "kubernetes.io/hostname"

/-- The constant `v1.NodeSelectorOpIn` of `k8s.io/api/core/v1`. -/
def NodeSelectorOpIn : String := "In"

/-! ## Collaborators -/

/-- The types of the packages `node.go` imports. -/
structure Types where
  /-- The type `v1.Pod` -/
  Pod : Type
  /-- The type `v1alpha5.Taints` -/
  TaintSet : Type
  /-- The type `v1alpha5.Requirements` -/
  ReqSet : Type
  /-- The type `v1.ResourceList` -/
  ResourceList : Type
  /-- The type `cloudprovider.InstanceType` -/
  InstanceType : Type
  /-- The error values the collaborators return -/
  Err : Type
  /-- The state behind the shared `*Topology` -/
  Topology : Type

/-- The operations `node.go` calls, one field per call site shape.
Operations on values are functions; the three `Topology` methods take the
tracker state and return the state they leave. -/
structure Collaborators (T : Types) where
  /-- The call `Taints.Tolerates(pod) error` -/
  Tolerates : T.TaintSet → T.Pod → Option T.Err
  /-- The call `v1alpha5.NewPodRequirements(pod)` -/
  NewPodRequirements : T.Pod → T.ReqSet
  /-- The exported field `Requirements.Requirements` -/
  Requirements : T.ReqSet → List NodeSelectorRequirement
  /-- The call `Requirements.Add(requirements ...v1.NodeSelectorRequirement) Requirements` -/
  Add : T.ReqSet → List NodeSelectorRequirement → T.ReqSet
  /-- The call `Requirements.Compatible(other) error` -/
  Compatible : T.ReqSet → T.ReqSet → Option T.Err
  /-- The `%s` rendering of a `Requirements` value -/
  FormatRequirements : T.ReqSet → String
  /-- The call `Topology.Register(key, value)` -/
  Register : T.Topology → String → String → T.Topology
  /-- The call `Topology.AddRequirements(podRequirements, nodeRequirements, pod)`:
  the tightened set or an error, and the tracker state it leaves -/
  AddRequirements : T.Topology → T.ReqSet → T.ReqSet → T.Pod → Except T.Err T.ReqSet × T.Topology
  /-- The call `Topology.Record(pod, requirements)` -/
  Record : T.Topology → T.Pod → T.ReqSet → T.Topology
  /-- The call `cloudprovider.FilterInstanceTypes(instanceTypes, requirements, requests)` -/
  FilterInstanceTypes : List T.InstanceType → T.ReqSet → T.ResourceList → List T.InstanceType
  /-- The call `InstanceType.Name()` -/
  Name : T.InstanceType → String
  /-- The call `resources.Merge(a, b)` -/
  Merge : T.ResourceList → T.ResourceList → T.ResourceList
  /-- The call `resources.RequestsForPods(pod)` -/
  RequestsForPods : T.Pod → T.ResourceList
  /-- The call `resources.String(list)` -/
  ResourcesString : T.ResourceList → String

/-- A Go `error` returned by `Node.Add`: either the value a collaborator
returned, or the value `fmt.Errorf` builds from its formatted message. -/
inductive GoError (Err : Type) where
  | ofCollaborator (e : Err)
  | Errorf (msg : String)
deriving DecidableEq, Repr

/-! ## The node -/

/-- The part of `v1alpha5.Provisioner.Spec` that `node.go` reads and writes. -/
structure ProvisionerSpec (T : Types) where
  Taints : T.TaintSet
  Requirements : T.ReqSet

/-- The struct `v1alpha5.Provisioner`, as far as `node.go` uses it. -/
structure Provisioner (T : Types) where
  Spec : ProvisionerSpec T

/-- The struct `Node`.  The field `topology *Topology` is the tracker state that
the operations below take and return. -/
structure Node (T : Types) where
  Hostname : String
  Provisioner : Provisioner T
  InstanceTypeOptions : List T.InstanceType
  Pods : List T.Pod
  requests : T.ResourceList

/-! ## `fmt.Sprintf("hostname-placeholder-%04d", ...)` and the counter -/

/-- Two's complement wrap-around of a 64 bit signed integer. -/
def wrapInt64 (i : Int) : Int := (i + 2 ^ 63) % 2 ^ 64 - 2 ^ 63

/-- Zeros in front of a decimal numeral until it has `width` digits. -/
def zeroPad (width : Nat) (digits : String) : String :=
  String.mk (List.replicate (width - digits.length) '0') ++ digits

/-- The verb `%04d` of package `fmt` on an integer: minimum width 4, padded
with zeros; a minus sign counts towards the width and stands before the zeros. -/
def format04d (i : Int) : String :=
  if i < 0 then "-" ++ zeroPad 3 (Nat.repr i.natAbs) else zeroPad 4 (Nat.repr i.natAbs)

/-- The result of `NewNode`: the node, the tracker state and the value of the
package variable `nodeID` after the call. -/
structure NewNodeResult (T : Types) where
  node : Node T
  topology : T.Topology
  nodeID : Int

/-- The function `NewNode`.  `atomic.AddInt64(&nodeID, 1)` stores and returns the
incremented counter; `provisioner.DeepCopy()` is the value `provisioner`. -/
def NewNode {T : Types} (E : Collaborators T) (nodeID : Int) (provisioner : Provisioner T)
    (topology : T.Topology) (daemonResources : T.ResourceList)
    (instanceTypes : List T.InstanceType) : NewNodeResult T :=
  let nodeID := wrapInt64 (nodeID + 1)
  let Hostname := "hostname-placeholder-" ++ format04d nodeID
  let n : Node T :=
    { Hostname := Hostname
      Provisioner := provisioner
      InstanceTypeOptions := instanceTypes
      Pods := []
      requests := daemonResources }
  let n : Node T :=
    { n with
      Provisioner :=
        { Spec :=
            { n.Provisioner.Spec with
              Requirements :=
                E.Add n.Provisioner.Spec.Requirements
                  [{ Key := LabelHostname, Operator := NodeSelectorOpIn, Values := [n.Hostname] }] } } }
  let topology := E.Register topology LabelHostname n.Hostname
  { node := n, topology := topology, nodeID := nodeID }

/-! ## `Node.Add` -/

/-- The result of `Node.Add`: the returned error (`none` is `nil`), the node and
the tracker state after the call. -/
structure AddResult (T : Types) where
  err : Option (GoError T.Err)
  node : Node T
  topology : T.Topology

/-- The method `Node.Add`. -/
def Node.Add {T : Types} (E : Collaborators T) (n : Node T) (topology : T.Topology)
    (pod : T.Pod) : AddResult T :=
  -- Check tolerations
  match E.Tolerates n.Provisioner.Spec.Taints pod with
  | some err => { err := some (.ofCollaborator err), node := n, topology := topology }
  | none =>
  let podRequirements := E.NewPodRequirements pod
  -- Check initial compatibility
  match E.Compatible n.Provisioner.Spec.Requirements podRequirements with
  | some err => { err := some (.ofCollaborator err), node := n, topology := topology }
  | none =>
  let nodeRequirements := E.Add n.Provisioner.Spec.Requirements (E.Requirements podRequirements)
  -- Include topology requirements
  match E.AddRequirements topology podRequirements nodeRequirements pod with
  | (.error err, topology) => { err := some (.ofCollaborator err), node := n, topology := topology }
  | (.ok requirements, topology) =>
  -- Check node compatibility
  match E.Compatible n.Provisioner.Spec.Requirements requirements with
  | some err => { err := some (.ofCollaborator err), node := n, topology := topology }
  | none =>
  -- Tighten requirements
  let requirements := E.Add n.Provisioner.Spec.Requirements (E.Requirements requirements)
  let requests := E.Merge n.requests (E.RequestsForPods pod)
  -- Check instance type combinations
  let instanceTypes := E.FilterInstanceTypes n.InstanceTypeOptions requirements requests
  if instanceTypes.length = 0 then
    { err := some (.Errorf ("no instance type satisfied resources "
              ++ E.ResourcesString (E.RequestsForPods pod)
              ++ " and requirements " ++ E.FormatRequirements requirements))
      node := n, topology := topology }
  else
    -- Update node
    { err := none
      node :=
        { n with
          Pods := n.Pods ++ [pod]
          InstanceTypeOptions := instanceTypes
          requests := requests
          Provisioner := { Spec := { n.Provisioner.Spec with Requirements := requirements } } }
      topology := E.Record topology pod requirements }

/-- A sequence of `Add` calls on one node.  Each call comes with the state the
shared tracker is in when the call starts: between two calls sibling nodes may
have registered or recorded placements of their own. -/
def Node.AddAll {T : Types} (E : Collaborators T) (n : Node T) :
    List (T.Topology × T.Pod) → Node T
  | [] => n
  | (topology, pod) :: calls => Node.AddAll E (Node.Add E n topology pod).node calls

/-! ## `Node.String` -/

/-- The loop of `Node.String` over the options that remain, `i` being the index
of the first of them, `len` the value of `len(n.InstanceTypeOptions)` and `itSb`
the contents of the builder so far. -/
def instanceTypesLoop {T : Types} (E : Collaborators T) (len : Nat) :
    Nat → List T.InstanceType → String → String
  | _, [], itSb => itSb
  | i, it :: rest, itSb =>
    -- print the first 5 instance types only (indices 0-4)
    if i > 4 then
      itSb ++ (" and " ++ Nat.repr (len - i) ++ " other(s)")
    else
      let itSb := if i > 0 then itSb ++ ", " else itSb
      instanceTypesLoop E len (i + 1) rest (itSb ++ E.Name it)

/-- The method `Node.String`: the rendered text, and the node after the call
(the method has a pointer receiver and assigns to none of its fields). -/
def Node.String {T : Types} (E : Collaborators T) (n : Node T) : String × Node T :=
  let itSb := instanceTypesLoop E n.InstanceTypeOptions.length 0 n.InstanceTypeOptions ""
  ("node with " ++ Nat.repr n.Pods.length ++ " pods requesting "
      ++ E.ResourcesString n.requests ++ " from types " ++ itSb, n)

/-! ## Named parts of `Node.Add` -/

section AddParts

variable {T : Types} (E : Collaborators T) (n : Node T) (topology : T.Topology) (pod : T.Pod)

/-- The local `nodeRequirements` of `Node.Add`: the node's current requirements
with the pod's requirements added. -/
def Node.nodeRequirements : T.ReqSet :=
  E.Add n.Provisioner.Spec.Requirements (E.Requirements (E.NewPodRequirements pod))

/-- The tracker call of `Node.Add`:
`n.topology.AddRequirements(podRequirements, nodeRequirements, pod)`. -/
def Node.topologyStage : Except T.Err T.ReqSet × T.Topology :=
  E.AddRequirements topology (E.NewPodRequirements pod) (Node.nodeRequirements E n pod) pod

/-- The local `requirements` of `Node.Add` after "Tighten requirements", for the
set `tightened` the tracker returned. -/
def Node.finalRequirements (tightened : T.ReqSet) : T.ReqSet :=
  E.Add n.Provisioner.Spec.Requirements (E.Requirements tightened)

/-- The local `requests` of `Node.Add`. -/
def Node.mergedRequests : T.ResourceList :=
  E.Merge n.requests (E.RequestsForPods pod)

/-- The local `instanceTypes` of `Node.Add`, for the set `tightened` the tracker
returned. -/
def Node.filteredInstanceTypes (tightened : T.ReqSet) : List T.InstanceType :=
  E.FilterInstanceTypes n.InstanceTypeOptions (Node.finalRequirements E n tightened)
    (Node.mergedRequests E n pod)

/-- The message of the error `Node.Add` builds when no instance type is left. -/
def noInstanceTypeMessage (tightened : T.ReqSet) : String :=
  "no instance type satisfied resources " ++ E.ResourcesString (E.RequestsForPods pod)
    ++ " and requirements " ++ E.FormatRequirements (Node.finalRequirements E n tightened)

/-- All five checks of `Node.Add` pass, in the order the method runs them. -/
def Node.AllStagesPass : Prop :=
  E.Tolerates n.Provisioner.Spec.Taints pod = none ∧
  E.Compatible n.Provisioner.Spec.Requirements (E.NewPodRequirements pod) = none ∧
  ∃ tightened, (Node.topologyStage E n topology pod).1 = .ok tightened ∧
    E.Compatible n.Provisioner.Spec.Requirements tightened = none ∧
    Node.filteredInstanceTypes E n pod tightened ≠ []

/-- The six ways through `Node.Add`. -/
inductive Node.AddOutcome : AddResult T → Prop where
  | notTolerated (e : T.Err)
      (h1 : E.Tolerates n.Provisioner.Spec.Taints pod = some e) :
      Node.AddOutcome { err := some (.ofCollaborator e), node := n, topology := topology }
  | incompatible (e : T.Err)
      (h1 : E.Tolerates n.Provisioner.Spec.Taints pod = none)
      (h2 : E.Compatible n.Provisioner.Spec.Requirements (E.NewPodRequirements pod) = some e) :
      Node.AddOutcome { err := some (.ofCollaborator e), node := n, topology := topology }
  | topologyError (e : T.Err) (t1 : T.Topology)
      (h1 : E.Tolerates n.Provisioner.Spec.Taints pod = none)
      (h2 : E.Compatible n.Provisioner.Spec.Requirements (E.NewPodRequirements pod) = none)
      (h3 : Node.topologyStage E n topology pod = (.error e, t1)) :
      Node.AddOutcome { err := some (.ofCollaborator e), node := n, topology := t1 }
  | tightenedIncompatible (e : T.Err) (tightened : T.ReqSet) (t1 : T.Topology)
      (h1 : E.Tolerates n.Provisioner.Spec.Taints pod = none)
      (h2 : E.Compatible n.Provisioner.Spec.Requirements (E.NewPodRequirements pod) = none)
      (h3 : Node.topologyStage E n topology pod = (.ok tightened, t1))
      (h4 : E.Compatible n.Provisioner.Spec.Requirements tightened = some e) :
      Node.AddOutcome { err := some (.ofCollaborator e), node := n, topology := t1 }
  | noInstanceType (tightened : T.ReqSet) (t1 : T.Topology)
      (h1 : E.Tolerates n.Provisioner.Spec.Taints pod = none)
      (h2 : E.Compatible n.Provisioner.Spec.Requirements (E.NewPodRequirements pod) = none)
      (h3 : Node.topologyStage E n topology pod = (.ok tightened, t1))
      (h4 : E.Compatible n.Provisioner.Spec.Requirements tightened = none)
      (h5 : Node.filteredInstanceTypes E n pod tightened = []) :
      Node.AddOutcome
        { err := some (.Errorf (noInstanceTypeMessage E n pod tightened))
          node := n, topology := t1 }
  | committed (tightened : T.ReqSet) (t1 : T.Topology)
      (h1 : E.Tolerates n.Provisioner.Spec.Taints pod = none)
      (h2 : E.Compatible n.Provisioner.Spec.Requirements (E.NewPodRequirements pod) = none)
      (h3 : Node.topologyStage E n topology pod = (.ok tightened, t1))
      (h4 : E.Compatible n.Provisioner.Spec.Requirements tightened = none)
      (h5 : Node.filteredInstanceTypes E n pod tightened ≠ []) :
      Node.AddOutcome
        { err := none
          node :=
            { Hostname := n.Hostname
              Provisioner :=
                { Spec :=
                    { Taints := n.Provisioner.Spec.Taints
                      Requirements := Node.finalRequirements E n tightened } }
              InstanceTypeOptions := Node.filteredInstanceTypes E n pod tightened
              Pods := n.Pods ++ [pod]
              requests := Node.mergedRequests E n pod }
          topology := E.Record t1 pod (Node.finalRequirements E n tightened) }

end AddParts

/-! ## Notions the claims are stated with -/

/-- The pods of a sequence of `Add` calls that were admitted (the calls that
returned `nil`), in the order of the calls. -/
def Node.Admitted {T : Types} (E : Collaborators T) (n : Node T) :
    List (T.Topology × T.Pod) → List T.Pod
  | [] => []
  | (topology, pod) :: calls =>
    if (Node.Add E n topology pod).err.isNone then
      pod :: Node.Admitted E (Node.Add E n topology pod).node calls
    else
      Node.Admitted E (Node.Add E n topology pod).node calls

/-- A baseline merged, by `resources.Merge`, with `RequestsForPods` of each pod of a
list, one after the other in the order of the list. -/
def accountedRequests {T : Types} (E : Collaborators T) (baseline : T.ResourceList)
    (pods : List T.Pod) : T.ResourceList :=
  pods.foldl (fun total pod => E.Merge total (E.RequestsForPods pod)) baseline

/-- The list of instance type names as the specification words it: the first five
names joined by `", "`, followed by `" and N other(s)"`, `N` the number of names
beyond the fifth, when there are more than five. -/
def describedTypes (names : List String) : String :=
  String.intercalate ", " (names.take 5)
    ++ (if names.length > 5 then " and " ++ Nat.repr (names.length - 5) ++ " other(s)" else "")

/-- Modelled from the spec: the intersection of the allowed values two requirement
sets give one key, where `none` stands for a key the set does not constrain. -/
def intersectAllowed : Option (Set String) → Option (Set String) → Option (Set String)
  | some a, some b => some (a ∩ b)
  | some a, none => some a
  | none, b => b

/-- Modelled from the spec: `Requirements.Add` is not in `node.go`; the
specification has a requirement set be a map from key to allowed values and `Add`
intersect per key.  `allowed` reads a requirement set as such a map, and the
property says that adding the requirements of `other` to `r` gives, for every key,
the intersection of what `r` and `other` allow. -/
def AddIsPerKeyIntersection {T : Types} (E : Collaborators T)
    (allowed : T.ReqSet → String → Option (Set String)) : Prop :=
  ∀ r other key,
    allowed (E.Add r (E.Requirements other)) key
      = intersectAllowed (allowed r key) (allowed other key)

/-! ## A concrete set of collaborators

A small implementation of every collaborator, on which the definitions above can
be evaluated.  The theorems about `Node` hold for every `Collaborators`; this one
supplies the concrete inputs at which they are instantiated.  A pod carries the taints it tolerates, a node selector, a CPU
request and, optionally, a topology key it has to be spread over; a requirement
set is its list of requirements; resources are a CPU count; the tracker keeps the
registered domains and the recorded placements. -/

namespace Demo

structure Pod where
  Name : String
  Tolerations : List String
  NodeSelector : List NodeSelectorRequirement
  Cpu : Nat
  Spread : Option String
deriving DecidableEq, Repr

structure InstanceType where
  Name : String
  Cpu : Nat
deriving DecidableEq, Repr

structure Topology where
  Domains : List (String × String)
  Records : List (Pod × List NodeSelectorRequirement)
deriving DecidableEq, Repr

/-- Modelled from the spec: the allowed values of `key` so far, narrowed by one
more requirement: an `In` requirement on the key keeps the values it lists. -/
def narrow (key : String) (acc : Option (List String)) (q : NodeSelectorRequirement) :
    Option (List String) :=
  if q.Key = key ∧ q.Operator = NodeSelectorOpIn then
    match acc with
    | none => some q.Values
    | some vs => some (vs.filter (fun v => q.Values.contains v))
  else acc

/-- Modelled from the spec: the allowed values of a key in a requirement set
(`none` when the set does not constrain the key), the values that every `In`
requirement on the key lists. -/
def allowed (r : List NodeSelectorRequirement) (key : String) : Option (List String) :=
  r.foldl (narrow key) none

/-- Modelled from the spec: `Compatible` fails when, for a key both sets
constrain, no value is allowed by both. -/
def compatible (r other : List NodeSelectorRequirement) : Option String :=
  match other.find? (fun q =>
      match allowed r q.Key, allowed other q.Key with
      | some a, some b => (a.filter (fun v => b.contains v)).isEmpty
      | _, _ => false) with
  | some q => some ("incompatible requirements, key " ++ q.Key)
  | none => none

/-- Modelled from the spec: the taints are tolerated when the pod tolerates each
of them; the error names the first taint that is not. -/
def tolerates (taints : List String) (pod : Pod) : Option String :=
  match taints.find? (fun t => !pod.Tolerations.contains t) with
  | some t => some ("did not tolerate " ++ t)
  | none => none

/-- Modelled from the spec: the tracker tightens the node's tentative requirements
of a pod with a spread key to the registered domains of that key that hold no
recorded placement, fails when there is none, and writes nothing. -/
def addRequirements (t : Topology) (nodeRequirements : List NodeSelectorRequirement)
    (pod : Pod) : Except String (List NodeSelectorRequirement) × Topology :=
  match pod.Spread with
  | none => (.ok nodeRequirements, t)
  | some key =>
    let free := ((t.Domains.filter (fun d => d.1 = key)).map (fun d => d.2)).filter
      (fun v => !t.Records.any (fun r => allowed r.2 key = some [v]))
    if free.isEmpty then (.error "unsatisfiable topology constraint", t)
    else (.ok (nodeRequirements ++ [{ Key := key, Operator := NodeSelectorOpIn, Values := free }]), t)

@[reducible] def types : Types where
  Pod := Pod
  TaintSet := List String
  ReqSet := List NodeSelectorRequirement
  ResourceList := Nat
  InstanceType := InstanceType
  Err := String
  Topology := Topology

/-- The concrete collaborators. -/
def collaborators : Collaborators types where
  Tolerates := tolerates
  NewPodRequirements := fun pod => pod.NodeSelector
  Requirements := fun r => r
  Add := fun r l => r ++ l
  Compatible := compatible
  FormatRequirements := fun r => String.intercalate ", " (r.map (fun q => q.Key))
  Register := fun t key value => { t with Domains := t.Domains ++ [(key, value)] }
  AddRequirements := fun t _ nodeRequirements pod => addRequirements t nodeRequirements pod
  Record := fun t pod r => { t with Records := t.Records ++ [(pod, r)] }
  FilterInstanceTypes := fun options _ requests => options.filter (fun it => requests ≤ it.Cpu)
  Name := fun it => it.Name
  Merge := fun a b => a + b
  RequestsForPods := fun pod => pod.Cpu
  ResourcesString := fun q => Nat.repr q ++ " cpu"

/-- A tracker with two zones registered and nothing recorded. -/
def tracker : Topology :=
  { Domains := [("zone", "us-east-1a"), ("zone", "us-east-1b")], Records := [] }

/-- A template with one taint and a zone requirement. -/
def template : Provisioner types :=
  { Spec :=
      { Taints := ["key=A:NoSchedule"]
        Requirements := [{ Key := "zone", Operator := NodeSelectorOpIn, Values := ["us-east-1a"] }] } }

/-- Instance types of 2, 4 and 8 CPU. -/
def instanceTypes : List InstanceType :=
  [{ Name := "small", Cpu := 2 }, { Name := "medium", Cpu := 4 }, { Name := "large", Cpu := 8 }]

/-- The first node of a process, with a baseline of 1 CPU. -/
def node : Node types := (NewNode collaborators 0 template tracker 1 instanceTypes).node

/-- The tracker after that node was made. -/
def nodeTracker : Topology := (NewNode collaborators 0 template tracker 1 instanceTypes).topology

/-- A pod the node admits. -/
def podFits : Pod :=
  { Name := "fits", Tolerations := ["key=A:NoSchedule"], NodeSelector := [], Cpu := 2, Spread := none }

/-- A pod without a toleration for the node's taint. -/
def podUntolerated : Pod :=
  { Name := "untolerated", Tolerations := [], NodeSelector := [], Cpu := 2, Spread := none }

/-- A pod that asks for another zone than the node's. -/
def podOtherZone : Pod :=
  { Name := "other-zone", Tolerations := ["key=A:NoSchedule"]
    NodeSelector := [{ Key := "zone", Operator := NodeSelectorOpIn, Values := ["us-east-1b"] }]
    Cpu := 2, Spread := none }

/-- A pod to spread over a key no domain is registered for. -/
def podNoDomain : Pod :=
  { Name := "no-domain", Tolerations := ["key=A:NoSchedule"], NodeSelector := [], Cpu := 2
    Spread := some "rack" }

/-- A pod to spread over zones. -/
def podSpread : Pod :=
  { Name := "spread", Tolerations := ["key=A:NoSchedule"], NodeSelector := [], Cpu := 2
    Spread := some "zone" }

/-- A tracker in which zone `us-east-1a` already holds a placement. -/
def trackerZoneTaken : Topology :=
  { nodeTracker with
    Records := [(podFits, [{ Key := "zone", Operator := NodeSelectorOpIn, Values := ["us-east-1a"] }])] }

/-- A pod that needs more CPU than any instance type has. -/
def podTooBig : Pod :=
  { Name := "too-big", Tolerations := ["key=A:NoSchedule"], NodeSelector := [], Cpu := 9, Spread := none }

/-- The values a list allows, as a set. -/
def asSet (acc : Option (List String)) : Option (Set String) :=
  acc.map (fun values => {v | v ∈ values})

/-- The concrete requirement sets read as maps from key to allowed-value set. -/
def allowedSet (r : List NodeSelectorRequirement) (key : String) : Option (Set String) :=
  asSet (allowed r key)

/-- Seven instance types, named `t1` to `t7`. -/
def sevenTypes : List InstanceType :=
  [{ Name := "t1", Cpu := 1 }, { Name := "t2", Cpu := 2 }, { Name := "t3", Cpu := 3 },
   { Name := "t4", Cpu := 4 }, { Name := "t5", Cpu := 5 }, { Name := "t6", Cpu := 6 },
   { Name := "t7", Cpu := 7 }]

/-- The second node of a process, made with the seven types. -/
def nodeOfSeven : Node types := (NewNode collaborators 1 template nodeTracker 1 sevenTypes).node

end Demo

/-! ## Notions for the identities -/

/-- The number a list of decimal digit characters writes, most significant digit
first. -/
def decimalValue (digits : List Char) : Nat :=
  digits.foldl (fun acc c => 10 * acc + (c.toNat - 48)) 0

/-- A run of `NewNode` calls, one per entry of the list (the template, the state
the tracker is in, the baseline and the instance types of the call), the counter
being handed from each call to the next: the nodes made, in order, and the counter
after the last call. -/
def NewNodes {T : Types} (E : Collaborators T) (nodeID : Int) :
    List (Provisioner T × T.Topology × T.ResourceList × List T.InstanceType) →
      List (Node T) × Int
  | [] => ([], nodeID)
  | (provisioner, topology, daemonResources, instanceTypes) :: calls =>
    ((NewNode E nodeID provisioner topology daemonResources instanceTypes).node
        :: (NewNodes E
              (NewNode E nodeID provisioner topology daemonResources instanceTypes).nodeID
              calls).1,
      (NewNodes E (NewNode E nodeID provisioner topology daemonResources instanceTypes).nodeID
        calls).2)

/-! ## Provisioner objects behind pointers

`NewNode` and `Node.Add` once more, with the field `Provisioner
*v1alpha5.Provisioner` of `Node` as a pointer into a heap of provisioner objects, to
say which objects a call writes. -/

/-- The `v1alpha5.Provisioner` objects of a process.  A `*v1alpha5.Provisioner` is
the index of a cell; `next` is the first index at which no object was allocated. -/
structure Heap (T : Types) where
  next : Nat
  cell : Nat → Provisioner T

/-- Modelled from the spec: `Provisioner.DeepCopy()` is not in `node.go`; the
specification has it give "an owned, independent copy": a newly allocated object
that holds the value of the object copied.  Returns the pointer to the copy. -/
def Heap.DeepCopy {T : Types} (heap : Heap T) (provisioner : Nat) : Nat × Heap T :=
  (heap.next,
    { next := heap.next + 1
      cell := Function.update heap.cell heap.next (heap.cell provisioner) })

/-- The assignment `p.Spec.Requirements = requirements` through the pointer `p`. -/
def Heap.setRequirements {T : Types} (heap : Heap T) (p : Nat) (requirements : T.ReqSet) :
    Heap T :=
  { heap with
    cell := Function.update heap.cell p
      { Spec := { (heap.cell p).Spec with Requirements := requirements } } }

/-- The struct `Node` with its field `Provisioner` as a pointer. -/
structure NodeRef (T : Types) where
  Hostname : String
  Provisioner : Nat
  InstanceTypeOptions : List T.InstanceType
  Pods : List T.Pod
  requests : T.ResourceList

/-- The node a `NodeRef` stands for in a heap. -/
def NodeRef.deref {T : Types} (heap : Heap T) (n : NodeRef T) : Node T :=
  { Hostname := n.Hostname
    Provisioner := heap.cell n.Provisioner
    InstanceTypeOptions := n.InstanceTypeOptions
    Pods := n.Pods
    requests := n.requests }

/-- The result of `NewNode` on pointers. -/
structure NewNodeRefResult (T : Types) where
  node : NodeRef T
  heap : Heap T
  topology : T.Topology
  nodeID : Int

/-- The function `NewNode` on pointers: `provisioner` points to the caller's
template. -/
def NewNodeRef {T : Types} (E : Collaborators T) (heap : Heap T) (nodeID : Int)
    (provisioner : Nat) (topology : T.Topology) (daemonResources : T.ResourceList)
    (instanceTypes : List T.InstanceType) : NewNodeRefResult T :=
  let nodeID := wrapInt64 (nodeID + 1)
  let copy := heap.DeepCopy provisioner
  let heap := copy.2
  let n : NodeRef T :=
    { Hostname := "hostname-placeholder-" ++ format04d nodeID
      Provisioner := copy.1
      InstanceTypeOptions := instanceTypes
      Pods := []
      requests := daemonResources }
  let heap := heap.setRequirements n.Provisioner
    (E.Add (heap.cell n.Provisioner).Spec.Requirements
      [{ Key := LabelHostname, Operator := NodeSelectorOpIn, Values := [n.Hostname] }])
  let topology := E.Register topology LabelHostname n.Hostname
  { node := n, heap := heap, topology := topology, nodeID := nodeID }

/-- The result of `Node.Add` on pointers. -/
structure AddRefResult (T : Types) where
  err : Option (GoError T.Err)
  node : NodeRef T
  heap : Heap T
  topology : T.Topology

/-- The method `Node.Add` on pointers. -/
def NodeRef.Add {T : Types} (E : Collaborators T) (heap : Heap T) (n : NodeRef T)
    (topology : T.Topology) (pod : T.Pod) : AddRefResult T :=
  -- Check tolerations
  match E.Tolerates (heap.cell n.Provisioner).Spec.Taints pod with
  | some err =>
    { err := some (.ofCollaborator err), node := n, heap := heap, topology := topology }
  | none =>
  let podRequirements := E.NewPodRequirements pod
  -- Check initial compatibility
  match E.Compatible (heap.cell n.Provisioner).Spec.Requirements podRequirements with
  | some err =>
    { err := some (.ofCollaborator err), node := n, heap := heap, topology := topology }
  | none =>
  let nodeRequirements :=
    E.Add (heap.cell n.Provisioner).Spec.Requirements (E.Requirements podRequirements)
  -- Include topology requirements
  match E.AddRequirements topology podRequirements nodeRequirements pod with
  | (.error err, topology) =>
    { err := some (.ofCollaborator err), node := n, heap := heap, topology := topology }
  | (.ok requirements, topology) =>
  -- Check node compatibility
  match E.Compatible (heap.cell n.Provisioner).Spec.Requirements requirements with
  | some err =>
    { err := some (.ofCollaborator err), node := n, heap := heap, topology := topology }
  | none =>
  -- Tighten requirements
  let requirements :=
    E.Add (heap.cell n.Provisioner).Spec.Requirements (E.Requirements requirements)
  let requests := E.Merge n.requests (E.RequestsForPods pod)
  -- Check instance type combinations
  let instanceTypes := E.FilterInstanceTypes n.InstanceTypeOptions requirements requests
  if instanceTypes.length = 0 then
    { err := some (.Errorf ("no instance type satisfied resources "
              ++ E.ResourcesString (E.RequestsForPods pod)
              ++ " and requirements " ++ E.FormatRequirements requirements))
      node := n, heap := heap, topology := topology }
  else
    -- Update node
    { err := none
      node :=
        { n with
          Pods := n.Pods ++ [pod]
          InstanceTypeOptions := instanceTypes
          requests := requests }
      heap := heap.setRequirements n.Provisioner requirements
      topology := E.Record topology pod requirements }

/-- A sequence of `Add` calls on one node, on pointers: the node and the heap after
the last call. -/
def NodeRef.AddAll {T : Types} (E : Collaborators T) (heap : Heap T) (n : NodeRef T) :
    List (T.Topology × T.Pod) → NodeRef T × Heap T
  | [] => (n, heap)
  | (topology, pod) :: calls =>
    NodeRef.AddAll E (NodeRef.Add E heap n topology pod).heap
      (NodeRef.Add E heap n topology pod).node calls

namespace Demo

/-- A heap that holds the template, at pointer 0, and nothing else. -/
def heap : Heap types := { next := 1, cell := fun _ => template }

end Demo

/-! ## Notions for the hostname requirement -/

/-- Modelled from the spec: what the one requirement `key In values` allows for a
key `k`: the listed values when `k` is its key, and anything otherwise. -/
def allowedByIn (key : String) (values : List String) (k : String) : Option (Set String) :=
  if k = key then some {v | v ∈ values} else none

/-- Modelled from the spec: `Requirements.Add` of a single `In` requirement
intersects, per key, what the set allows with what the requirement allows. -/
def AddOfInIsIntersection {T : Types} (E : Collaborators T)
    (allowed : T.ReqSet → String → Option (Set String)) : Prop :=
  ∀ r key values k,
    allowed (E.Add r [{ Key := key, Operator := NodeSelectorOpIn, Values := values }]) k
      = intersectAllowed (allowed r k) (allowedByIn key values k)

/-- Modelled from the spec: `Requirements.Compatible` is not in `node.go`; the
specification has it fail when two sets cannot hold together.  The property says
that it returns `nil` only if every key both sets constrain has a value both
allow (so it fails when the intersection for some key is empty). -/
def CompatibleNeedsCommonValues {T : Types} (E : Collaborators T)
    (allowed : T.ReqSet → String → Option (Set String)) : Prop :=
  ∀ r other, E.Compatible r other = none →
    ∀ key a b, allowed r key = some a → allowed other key = some b → (a ∩ b).Nonempty

/-- The requirement set of the node constrains the hostname key, and allows for it
the node's own identity and nothing else. -/
def HostnamePinned {T : Types} (allowed : T.ReqSet → String → Option (Set String))
    (n : Node T) : Prop :=
  allowed n.Provisioner.Spec.Requirements LabelHostname = some {n.Hostname}

/-! ## Notions for the resource total -/

/-- Modelled from the spec: `resources.Merge` is not in `node.go`; the claim has it
add quantities per resource name.  `quantity` reads a resource list as the quantity
it holds for each resource name, and the property says that the merge of two lists
holds, for every name, the sum of what the two hold. -/
def MergeIsPerNameAddition {T : Types} {Q : Type} [Add Q] (E : Collaborators T)
    (quantity : T.ResourceList → String → Q) : Prop :=
  ∀ a b name, quantity (E.Merge a b) name = quantity a name + quantity b name

/-- Every call of a sequence of `Add` calls returns `nil`. -/
def Node.AllAdmitted {T : Types} (E : Collaborators T) (n : Node T) :
    List (T.Topology × T.Pod) → Bool
  | [] => true
  | (topology, pod) :: calls =>
    (Node.Add E n topology pod).err.isNone
      && Node.AllAdmitted E (Node.Add E n topology pod).node calls

namespace Demo

/-- The concrete resource lists read per resource name: they hold CPU only. -/
def quantity (q : Nat) (name : String) : Nat := if name = "cpu" then q else 0

end Demo

/-! ## Notions for the capacity check -/

/-- Modelled from the spec: `cloudprovider.FilterInstanceTypes` is not in `node.go`;
the claim takes a filter that keeps exactly the instance types whose CPU capacity is
at least the requested total.  `capacity` reads the CPU capacity of an instance type
and `demand` the CPU a resource list asks for. -/
def FilterKeepsLargeEnough {T : Types} (E : Collaborators T)
    (capacity : T.InstanceType → Nat) (demand : T.ResourceList → Nat) : Prop :=
  ∀ options requirements requests,
    E.FilterInstanceTypes options requirements requests
      = options.filter (fun it => decide (demand requests ≤ capacity it))

namespace Demo

/-- A node with the instance types of 2, 4 and 8 CPU and a resource total of 3 CPU. -/
def nodeOfThreeCpu : Node types := (NewNode collaborators 0 template tracker 3 instanceTypes).node

/-- A pod that requests 6 CPU. -/
def podSixCpu : Pod :=
  { Name := "six-cpu", Tolerations := ["key=A:NoSchedule"], NodeSelector := [], Cpu := 6
    Spread := none }

end Demo

/-! # Theorems -/

/-! ## The outcomes of `Node.Add` -/

section AddOutcomes

variable {T : Types} (E : Collaborators T) (n : Node T) (topology : T.Topology) (pod : T.Pod)

theorem Node.Add_of_not_tolerated {e : T.Err}
    (h1 : E.Tolerates n.Provisioner.Spec.Taints pod = some e) :
    Node.Add E n topology pod
      = { err := some (.ofCollaborator e), node := n, topology := topology } := by
  simp only [Node.Add, h1]

theorem Node.Add_of_incompatible {e : T.Err}
    (h1 : E.Tolerates n.Provisioner.Spec.Taints pod = none)
    (h2 : E.Compatible n.Provisioner.Spec.Requirements (E.NewPodRequirements pod) = some e) :
    Node.Add E n topology pod
      = { err := some (.ofCollaborator e), node := n, topology := topology } := by
  simp only [Node.Add, h1, h2]

theorem Node.Add_of_topology_error {e : T.Err} {t1 : T.Topology}
    (h1 : E.Tolerates n.Provisioner.Spec.Taints pod = none)
    (h2 : E.Compatible n.Provisioner.Spec.Requirements (E.NewPodRequirements pod) = none)
    (h3 : Node.topologyStage E n topology pod = (.error e, t1)) :
    Node.Add E n topology pod
      = { err := some (.ofCollaborator e), node := n, topology := t1 } := by
  simp only [Node.topologyStage, Node.nodeRequirements] at h3
  simp only [Node.Add, h1, h2, h3]

theorem Node.Add_of_tightened_incompatible {e : T.Err} {tightened : T.ReqSet} {t1 : T.Topology}
    (h1 : E.Tolerates n.Provisioner.Spec.Taints pod = none)
    (h2 : E.Compatible n.Provisioner.Spec.Requirements (E.NewPodRequirements pod) = none)
    (h3 : Node.topologyStage E n topology pod = (.ok tightened, t1))
    (h4 : E.Compatible n.Provisioner.Spec.Requirements tightened = some e) :
    Node.Add E n topology pod
      = { err := some (.ofCollaborator e), node := n, topology := t1 } := by
  simp only [Node.topologyStage, Node.nodeRequirements] at h3
  simp only [Node.Add, h1, h2, h3, h4]

theorem Node.Add_of_no_instance_type {tightened : T.ReqSet} {t1 : T.Topology}
    (h1 : E.Tolerates n.Provisioner.Spec.Taints pod = none)
    (h2 : E.Compatible n.Provisioner.Spec.Requirements (E.NewPodRequirements pod) = none)
    (h3 : Node.topologyStage E n topology pod = (.ok tightened, t1))
    (h4 : E.Compatible n.Provisioner.Spec.Requirements tightened = none)
    (h5 : Node.filteredInstanceTypes E n pod tightened = []) :
    Node.Add E n topology pod
      = { err := some (.Errorf (noInstanceTypeMessage E n pod tightened))
          node := n, topology := t1 } := by
  simp only [Node.topologyStage, Node.nodeRequirements] at h3
  simp only [Node.filteredInstanceTypes, Node.finalRequirements, Node.mergedRequests] at h5
  simp only [Node.Add, h1, h2, h3, h4, h5, noInstanceTypeMessage, Node.finalRequirements,
    List.length_nil, if_true]

theorem Node.Add_of_all_pass {tightened : T.ReqSet} {t1 : T.Topology}
    (h1 : E.Tolerates n.Provisioner.Spec.Taints pod = none)
    (h2 : E.Compatible n.Provisioner.Spec.Requirements (E.NewPodRequirements pod) = none)
    (h3 : Node.topologyStage E n topology pod = (.ok tightened, t1))
    (h4 : E.Compatible n.Provisioner.Spec.Requirements tightened = none)
    (h5 : Node.filteredInstanceTypes E n pod tightened ≠ []) :
    Node.Add E n topology pod
      = { err := none
          node :=
            { Hostname := n.Hostname
              Provisioner :=
                { Spec :=
                    { Taints := n.Provisioner.Spec.Taints
                      Requirements := Node.finalRequirements E n tightened } }
              InstanceTypeOptions := Node.filteredInstanceTypes E n pod tightened
              Pods := n.Pods ++ [pod]
              requests := Node.mergedRequests E n pod }
          topology := E.Record t1 pod (Node.finalRequirements E n tightened) } := by
  simp only [Node.topologyStage, Node.nodeRequirements] at h3
  simp only [Node.filteredInstanceTypes, Node.finalRequirements, Node.mergedRequests] at h5
  have h6 : ¬ (E.FilterInstanceTypes n.InstanceTypeOptions
      (E.Add n.Provisioner.Spec.Requirements (E.Requirements tightened))
      (E.Merge n.requests (E.RequestsForPods pod))).length = 0 := by
    intro h
    exact h5 (List.length_eq_zero.mp h)
  simp only [Node.Add, h1, h2, h3, h4, h6, if_false, Node.filteredInstanceTypes,
    Node.finalRequirements, Node.mergedRequests]

/-- Every call of `Node.Add` takes one of the six ways. -/
theorem Node.Add_outcome : Node.AddOutcome E n topology pod (Node.Add E n topology pod) := by
  cases h1 : E.Tolerates n.Provisioner.Spec.Taints pod with
  | some e => rw [Node.Add_of_not_tolerated E n topology pod h1]; exact .notTolerated e h1
  | none =>
    cases h2 : E.Compatible n.Provisioner.Spec.Requirements (E.NewPodRequirements pod) with
    | some e => rw [Node.Add_of_incompatible E n topology pod h1 h2]; exact .incompatible e h1 h2
    | none =>
      rcases h3 : Node.topologyStage E n topology pod with ⟨r, t1⟩
      cases r with
      | error e =>
        rw [Node.Add_of_topology_error E n topology pod h1 h2 h3]
        exact .topologyError e t1 h1 h2 h3
      | ok tightened =>
        cases h4 : E.Compatible n.Provisioner.Spec.Requirements tightened with
        | some e =>
          rw [Node.Add_of_tightened_incompatible E n topology pod h1 h2 h3 h4]
          exact .tightenedIncompatible e tightened t1 h1 h2 h3 h4
        | none =>
          by_cases h5 : Node.filteredInstanceTypes E n pod tightened = []
          · rw [Node.Add_of_no_instance_type E n topology pod h1 h2 h3 h4 h5]
            exact .noInstanceType tightened t1 h1 h2 h3 h4 h5
          · rw [Node.Add_of_all_pass E n topology pod h1 h2 h3 h4 h5]
            exact .committed tightened t1 h1 h2 h3 h4 h5

end AddOutcomes

/-! ## Claims about `Node.Add` -/

section AddClaims

variable {T : Types} (E : Collaborators T) (n : Node T) (topology : T.Topology) (pod : T.Pod)

/-- C1, atomicity of `Node.Add`: when `Add` returns an error, whichever of its
stages produced it, the node after the call equals the node before it; in
particular its requirement set, its instance type options, its resource total and
its pod list are the ones it had. -/
theorem add_failure_leaves_node_unchanged
    (h : (Node.Add E n topology pod).err ≠ none) :
    (Node.Add E n topology pod).node = n ∧
    (Node.Add E n topology pod).node.Provisioner.Spec.Requirements
      = n.Provisioner.Spec.Requirements ∧
    (Node.Add E n topology pod).node.InstanceTypeOptions = n.InstanceTypeOptions ∧
    (Node.Add E n topology pod).node.requests = n.requests ∧
    (Node.Add E n topology pod).node.Pods = n.Pods := by
  have key : (Node.Add E n topology pod).node = n := by
    have ho := Node.Add_outcome E n topology pod
    generalize Node.Add E n topology pod = r at h ho
    cases ho with
    | committed => exact absurd rfl h
    | _ => rfl
  rw [key]
  exact ⟨rfl, rfl, rfl, rfl, rfl⟩

/-- The scenario of the specification: a node with taint `key=A:NoSchedule` and a
pod without a toleration for it; `Add` fails and the node is unchanged. -/
theorem add_failure_leaves_node_unchanged_witness :
    (Node.Add Demo.collaborators Demo.node Demo.nodeTracker Demo.podUntolerated).err
      = some (.ofCollaborator "did not tolerate key=A:NoSchedule") ∧
    (Node.Add Demo.collaborators Demo.node Demo.nodeTracker Demo.podUntolerated).node
      = Demo.node :=
  ⟨by decide,
   (add_failure_leaves_node_unchanged Demo.collaborators Demo.node Demo.nodeTracker
      Demo.podUntolerated (by decide)).1⟩

/-- C2, ordered checks of `Node.Add`: `Add` returns `nil` exactly when all five
stages pass (toleration, compatibility with the pod's requirements, the tracker's
`AddRequirements`, compatibility with the tightened set, a non-empty filter
result), and a failing call returns the error of the first stage that fails in
that order: the toleration error whatever the later stages would say, then the
first compatibility error, then the tracker's error, then the second
compatibility error, then the error built for an empty filter result. -/
theorem add_ordered_checks :
    ((Node.Add E n topology pod).err = none ↔ Node.AllStagesPass E n topology pod) ∧
    (∀ e, E.Tolerates n.Provisioner.Spec.Taints pod = some e →
      (Node.Add E n topology pod).err = some (.ofCollaborator e)) ∧
    (E.Tolerates n.Provisioner.Spec.Taints pod = none →
      ∀ e, E.Compatible n.Provisioner.Spec.Requirements (E.NewPodRequirements pod) = some e →
      (Node.Add E n topology pod).err = some (.ofCollaborator e)) ∧
    (E.Tolerates n.Provisioner.Spec.Taints pod = none →
      E.Compatible n.Provisioner.Spec.Requirements (E.NewPodRequirements pod) = none →
      ∀ e, (Node.topologyStage E n topology pod).1 = .error e →
      (Node.Add E n topology pod).err = some (.ofCollaborator e)) ∧
    (E.Tolerates n.Provisioner.Spec.Taints pod = none →
      E.Compatible n.Provisioner.Spec.Requirements (E.NewPodRequirements pod) = none →
      ∀ tightened, (Node.topologyStage E n topology pod).1 = .ok tightened →
      ∀ e, E.Compatible n.Provisioner.Spec.Requirements tightened = some e →
      (Node.Add E n topology pod).err = some (.ofCollaborator e)) ∧
    (E.Tolerates n.Provisioner.Spec.Taints pod = none →
      E.Compatible n.Provisioner.Spec.Requirements (E.NewPodRequirements pod) = none →
      ∀ tightened, (Node.topologyStage E n topology pod).1 = .ok tightened →
      E.Compatible n.Provisioner.Spec.Requirements tightened = none →
      Node.filteredInstanceTypes E n pod tightened = [] →
      (Node.Add E n topology pod).err
        = some (.Errorf (noInstanceTypeMessage E n pod tightened))) := by
  refine ⟨?_, ?_, ?_, ?_, ?_, ?_⟩
  · constructor
    · intro h
      have ho := Node.Add_outcome E n topology pod
      generalize Node.Add E n topology pod = r at h ho
      cases ho with
      | committed tightened t1 h1 h2 h3 h4 h5 =>
        exact ⟨h1, h2, tightened, by rw [h3], h4, h5⟩
      | _ => exact absurd h (by simp)
    · rintro ⟨h1, h2, tightened, h3, h4, h5⟩
      have h3' : Node.topologyStage E n topology pod
          = (.ok tightened, (Node.topologyStage E n topology pod).2) := by
        rw [← h3]
      rw [Node.Add_of_all_pass E n topology pod h1 h2 h3' h4 h5]
  · intro e h1
    rw [Node.Add_of_not_tolerated E n topology pod h1]
  · intro h1 e h2
    rw [Node.Add_of_incompatible E n topology pod h1 h2]
  · intro h1 h2 e h3
    have h3' : Node.topologyStage E n topology pod
        = (.error e, (Node.topologyStage E n topology pod).2) := by
      rw [← h3]
    rw [Node.Add_of_topology_error E n topology pod h1 h2 h3']
  · intro h1 h2 tightened h3 e h4
    have h3' : Node.topologyStage E n topology pod
        = (.ok tightened, (Node.topologyStage E n topology pod).2) := by
      rw [← h3]
    rw [Node.Add_of_tightened_incompatible E n topology pod h1 h2 h3' h4]
  · intro h1 h2 tightened h3 h4 h5
    have h3' : Node.topologyStage E n topology pod
        = (.ok tightened, (Node.topologyStage E n topology pod).2) := by
      rw [← h3]
    rw [Node.Add_of_no_instance_type E n topology pod h1 h2 h3' h4 h5]

/-- The five stages on the concrete collaborators: a pod that passes all of them,
and one pod failing at each stage with the error of that stage (the second one is
the scenario "node requires zone `us-east-1a`, pod requires `us-east-1b`"). -/
theorem add_ordered_checks_witness :
    (Node.Add Demo.collaborators Demo.node Demo.nodeTracker Demo.podFits).err = none ∧
    (Node.Add Demo.collaborators Demo.node Demo.nodeTracker Demo.podUntolerated).err
      = some (.ofCollaborator "did not tolerate key=A:NoSchedule") ∧
    (Node.Add Demo.collaborators Demo.node Demo.nodeTracker Demo.podOtherZone).err
      = some (.ofCollaborator "incompatible requirements, key zone") ∧
    (Node.Add Demo.collaborators Demo.node Demo.nodeTracker Demo.podNoDomain).err
      = some (.ofCollaborator "unsatisfiable topology constraint") ∧
    (Node.Add Demo.collaborators Demo.node Demo.trackerZoneTaken Demo.podSpread).err
      = some (.ofCollaborator "incompatible requirements, key zone") ∧
    (Node.Add Demo.collaborators Demo.node Demo.nodeTracker Demo.podTooBig).err
      = some (.Errorf (noInstanceTypeMessage Demo.collaborators Demo.node Demo.podTooBig
          (Node.nodeRequirements Demo.collaborators Demo.node Demo.podTooBig))) :=
  ⟨(add_ordered_checks Demo.collaborators Demo.node Demo.nodeTracker Demo.podFits).1.mpr
      ⟨by decide, by decide, _, rfl, by decide, by decide⟩,
   (add_ordered_checks Demo.collaborators Demo.node Demo.nodeTracker Demo.podUntolerated).2.1
      _ (by decide),
   (add_ordered_checks Demo.collaborators Demo.node Demo.nodeTracker Demo.podOtherZone).2.2.1
      (by decide) _ (by decide),
   (add_ordered_checks Demo.collaborators Demo.node Demo.nodeTracker Demo.podNoDomain).2.2.2.1
      (by decide) (by decide) _ rfl,
   (add_ordered_checks Demo.collaborators Demo.node Demo.trackerZoneTaken Demo.podSpread).2.2.2.2.1
      (by decide) (by decide) _ rfl _ (by decide),
   (add_ordered_checks Demo.collaborators Demo.node Demo.nodeTracker Demo.podTooBig).2.2.2.2.2
      (by decide) (by decide) _ rfl (by decide) (by decide)⟩

/-- C3, commit of `Node.Add`: when `Add` returns `nil`, the tracker returned a set
`tightened`, and with `R = current.Add(tightened.Requirements...)` and
`Q = Merge(old requests, RequestsForPods(pod))` the node afterwards has requirement
set `R`, instance type options `FilterInstanceTypes(old options, R, Q)`, resource
total `Q`, and the old pod list with the pod appended at its end. -/
theorem add_success_commits
    (h : (Node.Add E n topology pod).err = none) :
    ∃ tightened, (Node.topologyStage E n topology pod).1 = .ok tightened ∧
      (Node.Add E n topology pod).node.Provisioner.Spec.Requirements
        = E.Add n.Provisioner.Spec.Requirements (E.Requirements tightened) ∧
      (Node.Add E n topology pod).node.InstanceTypeOptions
        = E.FilterInstanceTypes n.InstanceTypeOptions
            (E.Add n.Provisioner.Spec.Requirements (E.Requirements tightened))
            (E.Merge n.requests (E.RequestsForPods pod)) ∧
      (Node.Add E n topology pod).node.requests = E.Merge n.requests (E.RequestsForPods pod) ∧
      (Node.Add E n topology pod).node.Pods = n.Pods ++ [pod] := by
  have ho := Node.Add_outcome E n topology pod
  generalize Node.Add E n topology pod = r at h ho
  cases ho with
  | committed tightened t1 h1 h2 h3 h4 h5 =>
    exact ⟨tightened, by rw [h3], rfl, rfl, rfl, rfl⟩
  | _ => exact absurd h (by simp)

/-- A pod of 2 CPU admitted to the concrete node, whose total was 1 CPU and which
had the 2, 4 and 8 CPU types: the total becomes 3 and the 2 CPU type is dropped. -/
theorem add_success_commits_witness :
    (Node.Add Demo.collaborators Demo.node Demo.nodeTracker Demo.podFits).err = none ∧
    (Node.Add Demo.collaborators Demo.node Demo.nodeTracker Demo.podFits).node.requests = 3 ∧
    (Node.Add Demo.collaborators Demo.node Demo.nodeTracker Demo.podFits).node.Pods
      = [Demo.podFits] ∧
    (Node.Add Demo.collaborators Demo.node Demo.nodeTracker Demo.podFits).node.InstanceTypeOptions
      = [{ Name := "medium", Cpu := 4 }, { Name := "large", Cpu := 8 }] := by
  obtain ⟨tightened, _, _, h3, h4, h5⟩ :=
    add_success_commits Demo.collaborators Demo.node Demo.nodeTracker Demo.podFits (by decide)
  exact ⟨by decide, by rw [h4]; rfl, by rw [h5]; rfl, by rw [h3]; rfl⟩

/-- C4, commit only after full success in the shared tracker: for a tracker whose
`AddRequirements` leaves its state as it found it, a successful `Add` leaves the
tracker in the state of one `Record` call on the state it started from, made with
the pod and the requirement set committed to the node; a failed `Add` leaves the
tracker in the state it started from, so no `Record` call was made.  (The tracker
is any state with any `Record`; for one that logs its calls the log grows by
exactly that one entry, or not at all.) -/
theorem add_records_once_on_success_only
    (hpure : ∀ t a b p, (E.AddRequirements t a b p).2 = t) :
    ((Node.Add E n topology pod).err = none →
      (Node.Add E n topology pod).topology
        = E.Record topology pod (Node.Add E n topology pod).node.Provisioner.Spec.Requirements) ∧
    ((Node.Add E n topology pod).err ≠ none →
      (Node.Add E n topology pod).topology = topology) := by
  have hstage : ∀ r t1, Node.topologyStage E n topology pod = (r, t1) → t1 = topology := by
    intro r t1 h
    have := hpure topology (E.NewPodRequirements pod) (Node.nodeRequirements E n pod) pod
    simp only [Node.topologyStage] at h
    rw [h] at this
    exact this
  have ho := Node.Add_outcome E n topology pod
  generalize Node.Add E n topology pod = r at ho
  cases ho with
  | notTolerated e h1 => exact ⟨fun h => absurd h (by simp), fun _ => rfl⟩
  | incompatible e h1 h2 => exact ⟨fun h => absurd h (by simp), fun _ => rfl⟩
  | topologyError e t1 h1 h2 h3 =>
    exact ⟨fun h => absurd h (by simp), fun _ => hstage _ _ h3⟩
  | tightenedIncompatible e tightened t1 h1 h2 h3 h4 =>
    exact ⟨fun h => absurd h (by simp), fun _ => hstage _ _ h3⟩
  | noInstanceType tightened t1 h1 h2 h3 h4 h5 =>
    exact ⟨fun h => absurd h (by simp), fun _ => hstage _ _ h3⟩
  | committed tightened t1 h1 h2 h3 h4 h5 =>
    refine ⟨fun _ => ?_, fun h => absurd rfl h⟩
    show E.Record t1 pod _ = E.Record topology pod _
    rw [hstage _ _ h3]

end AddClaims

/-- The concrete tracker's `AddRequirements` writes nothing. -/
theorem Demo.addRequirements_pure (t : Demo.Topology) (a b : List NodeSelectorRequirement)
    (p : Demo.Pod) : (Demo.collaborators.AddRequirements t a b p).2 = t := by
  show (Demo.addRequirements t b p).2 = t
  unfold Demo.addRequirements
  split
  · rfl
  · dsimp only
    split <;> rfl

/-- The concrete tracker logs its `Record` calls: admitting a pod adds the one entry
of that pod with the node's new requirements, and a rejected pod (here for lack of
an instance type, the last check) leaves the tracker as it was. -/
theorem add_records_once_on_success_only_witness :
    (∀ t a b p, (Demo.collaborators.AddRequirements t a b p).2 = t) ∧
    (Node.Add Demo.collaborators Demo.node Demo.nodeTracker Demo.podFits).topology.Records
      = [(Demo.podFits,
          (Node.Add Demo.collaborators Demo.node Demo.nodeTracker
            Demo.podFits).node.Provisioner.Spec.Requirements)] ∧
    (Node.Add Demo.collaborators Demo.node Demo.nodeTracker Demo.podTooBig).topology
      = Demo.nodeTracker :=
  ⟨Demo.addRequirements_pure,
   by
    rw [(add_records_once_on_success_only Demo.collaborators Demo.node Demo.nodeTracker
      Demo.podFits Demo.addRequirements_pure).1 (by decide)]
    rfl,
   (add_records_once_on_success_only Demo.collaborators Demo.node Demo.nodeTracker
      Demo.podTooBig Demo.addRequirements_pure).2 (by decide)⟩

/-! ## Sequences of `Add` calls -/

section Sequences

variable {T : Types} (E : Collaborators T)

/-- What one `Add` call does to the node: nothing and an error, or the commit of
the values computed from some tightened set, with a non-empty filter result. -/
theorem Node.Add_node (n : Node T) (topology : T.Topology) (pod : T.Pod) :
    ((Node.Add E n topology pod).err ≠ none ∧ (Node.Add E n topology pod).node = n) ∨
    ((Node.Add E n topology pod).err = none ∧
      ∃ tightened,
        Node.filteredInstanceTypes E n pod tightened ≠ [] ∧
        (Node.Add E n topology pod).node =
          { Hostname := n.Hostname
            Provisioner :=
              { Spec :=
                  { Taints := n.Provisioner.Spec.Taints
                    Requirements := Node.finalRequirements E n tightened } }
            InstanceTypeOptions := Node.filteredInstanceTypes E n pod tightened
            Pods := n.Pods ++ [pod]
            requests := Node.mergedRequests E n pod }) := by
  have ho := Node.Add_outcome E n topology pod
  generalize Node.Add E n topology pod = r at ho
  cases ho with
  | committed tightened t1 h1 h2 h3 h4 h5 => exact Or.inr ⟨rfl, tightened, h5, rfl⟩
  | _ => exact Or.inl ⟨by simp, rfl⟩

theorem Node.AddAll_append (n : Node T) (calls later : List (T.Topology × T.Pod)) :
    Node.AddAll E n (calls ++ later) = Node.AddAll E (Node.AddAll E n calls) later := by
  induction calls generalizing n with
  | nil => rfl
  | cons c calls ih =>
    obtain ⟨topology, pod⟩ := c
    simp only [List.cons_append, Node.AddAll]
    exact ih _

/-- A property of nodes that every `Add` call keeps holds after every sequence of
calls. -/
theorem Node.AddAll_induction (P : Node T → Prop)
    (step : ∀ n topology pod, P n → P (Node.Add E n topology pod).node)
    (n : Node T) (h : P n) (calls : List (T.Topology × T.Pod)) : P (Node.AddAll E n calls) := by
  induction calls generalizing n with
  | nil => exact h
  | cons c calls ih =>
    obtain ⟨topology, pod⟩ := c
    exact ih _ (step n topology pod h)

theorem accountedRequests_append (baseline : T.ResourceList) (pods : List T.Pod) (pod : T.Pod) :
    accountedRequests E baseline (pods ++ [pod])
      = E.Merge (accountedRequests E baseline pods) (E.RequestsForPods pod) := by
  simp [accountedRequests, List.foldl_append]

theorem Node.AddAll_pods (n : Node T) (calls : List (T.Topology × T.Pod)) :
    (Node.AddAll E n calls).Pods = n.Pods ++ Node.Admitted E n calls := by
  induction calls generalizing n with
  | nil => simp [Node.AddAll, Node.Admitted]
  | cons c calls ih =>
    obtain ⟨topology, pod⟩ := c
    simp only [Node.AddAll, Node.Admitted]
    rw [ih]
    rcases Node.Add_node E n topology pod with ⟨herr, hnode⟩ | ⟨herr, tightened, _, hnode⟩
    · have : (Node.Add E n topology pod).err.isNone = false := by
        cases h : (Node.Add E n topology pod).err with
        | none => exact absurd h herr
        | some e => rfl
      rw [this, hnode]
      simp
    · have : (Node.Add E n topology pod).err.isNone = true := by rw [herr]; rfl
      rw [this, hnode]
      simp

end Sequences

section SequenceClaims

variable {T : Types} (E : Collaborators T)

/-- C5, resource accounting: after `NewNode` with baseline `b` and any sequence of
`Add` calls, successful or not, the node's resource total is `b` merged, by
`resources.Merge`, with `RequestsForPods` of each pod of its pod list in the order
of the list, and the pod list holds exactly the admitted pods in the order they
were admitted; a failed `Add` adds nothing to either. -/
theorem requests_account_for_admitted_pods (nodeID : Int) (provisioner : Provisioner T)
    (topology : T.Topology) (baseline : T.ResourceList) (instanceTypes : List T.InstanceType)
    (calls : List (T.Topology × T.Pod)) :
    (Node.AddAll E (NewNode E nodeID provisioner topology baseline instanceTypes).node
        calls).requests
      = accountedRequests E baseline
          (Node.AddAll E (NewNode E nodeID provisioner topology baseline instanceTypes).node
            calls).Pods ∧
    (Node.AddAll E (NewNode E nodeID provisioner topology baseline instanceTypes).node
        calls).Pods
      = Node.Admitted E (NewNode E nodeID provisioner topology baseline instanceTypes).node
          calls := by
  constructor
  · refine Node.AddAll_induction E (fun n => n.requests = accountedRequests E baseline n.Pods)
      ?_ _ rfl calls
    intro n t pod hn
    rcases Node.Add_node E n t pod with ⟨_, hnode⟩ | ⟨_, tightened, _, hnode⟩
    · rw [hnode]; exact hn
    · rw [hnode]
      simp only [accountedRequests_append, Node.mergedRequests, hn]
  · rw [Node.AddAll_pods]
    rfl

/-- On the concrete node with baseline 1 CPU: a pod of 2 CPU is admitted, one of 9
CPU rejected, the pod of 2 CPU admitted again; the total is 5 CPU and the pod list
holds the admitted pod twice. -/
theorem requests_account_for_admitted_pods_witness :
    (Node.AddAll Demo.collaborators Demo.node
        [(Demo.nodeTracker, Demo.podFits), (Demo.nodeTracker, Demo.podTooBig),
         (Demo.nodeTracker, Demo.podFits)]).requests = 5 ∧
    (Node.AddAll Demo.collaborators Demo.node
        [(Demo.nodeTracker, Demo.podFits), (Demo.nodeTracker, Demo.podTooBig),
         (Demo.nodeTracker, Demo.podFits)]).Pods = [Demo.podFits, Demo.podFits] :=
  ⟨(requests_account_for_admitted_pods Demo.collaborators 0 Demo.template Demo.tracker 1
      Demo.instanceTypes _).1.trans (by decide),
   (requests_account_for_admitted_pods Demo.collaborators 0 Demo.template Demo.tracker 1
      Demo.instanceTypes _).2.trans rfl⟩

/-- C6, non-empty instance options: after an `Add` that returns `nil` the node's
instance type options are non-empty, and they stay non-empty after every further
sequence of `Add` calls, successful or failed; and an `Add` whose filter result is
empty returns an error and leaves the node as it was. -/
theorem add_keeps_instance_types_nonempty (n : Node T) (topology : T.Topology) (pod : T.Pod) :
    ((Node.Add E n topology pod).err = none →
      ∀ calls, (Node.AddAll E (Node.Add E n topology pod).node calls).InstanceTypeOptions ≠ []) ∧
    (∀ tightened, (Node.topologyStage E n topology pod).1 = .ok tightened →
      E.FilterInstanceTypes n.InstanceTypeOptions
          (E.Add n.Provisioner.Spec.Requirements (E.Requirements tightened))
          (E.Merge n.requests (E.RequestsForPods pod)) = [] →
      (Node.Add E n topology pod).err ≠ none ∧ (Node.Add E n topology pod).node = n) := by
  constructor
  · intro h calls
    refine Node.AddAll_induction E (fun m => m.InstanceTypeOptions ≠ []) ?_ _ ?_ calls
    · intro m t p hm
      rcases Node.Add_node E m t p with ⟨_, hnode⟩ | ⟨_, tightened, hne, hnode⟩
      · rw [hnode]; exact hm
      · rw [hnode]; exact hne
    · rcases Node.Add_node E n topology pod with ⟨herr, _⟩ | ⟨_, tightened, hne, hnode⟩
      · exact absurd h herr
      · rw [hnode]; exact hne
  · intro tightened hstage hempty
    have ho := Node.Add_outcome E n topology pod
    generalize Node.Add E n topology pod = r at ho
    cases ho with
    | committed tightened' t1 h1 h2 h3 h4 h5 =>
      rw [h3] at hstage
      cases hstage
      exact absurd hempty h5
    | _ => exact ⟨by simp, rfl⟩

/-- On the concrete node: after an admitted pod, a rejected pod and the admitted pod
once more the 8 CPU type is left; and the pod of 9 CPU, for which no type passes the
filter, is rejected with the node unchanged. -/
theorem add_keeps_instance_types_nonempty_witness :
    (Node.AddAll Demo.collaborators
        (Node.Add Demo.collaborators Demo.node Demo.nodeTracker Demo.podFits).node
        [(Demo.nodeTracker, Demo.podTooBig), (Demo.nodeTracker, Demo.podFits)]
      ).InstanceTypeOptions ≠ [] ∧
    (Node.Add Demo.collaborators Demo.node Demo.nodeTracker Demo.podTooBig).err ≠ none ∧
    (Node.Add Demo.collaborators Demo.node Demo.nodeTracker Demo.podTooBig).node = Demo.node :=
  ⟨(add_keeps_instance_types_nonempty Demo.collaborators Demo.node Demo.nodeTracker
      Demo.podFits).1 (by decide) _,
   (add_keeps_instance_types_nonempty Demo.collaborators Demo.node Demo.nodeTracker
      Demo.podTooBig).2 _ rfl (by decide)⟩

/-- C7, monotonic narrowing of the instance options: if `FilterInstanceTypes` returns
an order-preserving subsequence of its options, then the options after an `Add`
call are a subsequence of the options before it; after any sequence of calls they
are a subsequence of the initial ones and not longer; and an instance type absent
after some calls is absent after any further calls. -/
theorem instance_types_only_narrow
    (hsub : ∀ options r q, (E.FilterInstanceTypes options r q).Sublist options)
    (n : Node T) :
    (∀ topology pod,
      (Node.Add E n topology pod).node.InstanceTypeOptions.Sublist n.InstanceTypeOptions) ∧
    (∀ calls,
      (Node.AddAll E n calls).InstanceTypeOptions.Sublist n.InstanceTypeOptions ∧
      (Node.AddAll E n calls).InstanceTypeOptions.length ≤ n.InstanceTypeOptions.length) ∧
    (∀ calls later it, it ∉ (Node.AddAll E n calls).InstanceTypeOptions →
      it ∉ (Node.AddAll E n (calls ++ later)).InstanceTypeOptions) := by
  have one : ∀ (m : Node T) topology pod,
      (Node.Add E m topology pod).node.InstanceTypeOptions.Sublist m.InstanceTypeOptions := by
    intro m t p
    rcases Node.Add_node E m t p with ⟨_, hnode⟩ | ⟨_, tightened, _, hnode⟩
    · rw [hnode]
    · rw [hnode]; exact hsub _ _ _
  have many : ∀ (m : Node T) calls,
      (Node.AddAll E m calls).InstanceTypeOptions.Sublist m.InstanceTypeOptions := by
    intro m calls
    induction calls generalizing m with
    | nil => exact List.Sublist.refl _
    | cons c calls ih =>
      obtain ⟨t, p⟩ := c
      exact (ih _).trans (one m t p)
  refine ⟨one n, fun calls => ⟨many n calls, (many n calls).length_le⟩, ?_⟩
  intro calls later it hnot hin
  rw [Node.AddAll_append] at hin
  exact hnot ((many _ later).subset hin)

/-- The concrete filter keeps the types with enough CPU, a subsequence of its
argument; after an admitted pod and a rejected one the node's options are a
subsequence of the three it started with. -/
theorem instance_types_only_narrow_witness :
    (∀ options r q, (Demo.collaborators.FilterInstanceTypes options r q).Sublist options) ∧
    (Node.AddAll Demo.collaborators Demo.node
        [(Demo.nodeTracker, Demo.podFits), (Demo.nodeTracker, Demo.podTooBig)]
      ).InstanceTypeOptions.Sublist Demo.instanceTypes :=
  ⟨fun _ _ _ => List.filter_sublist _,
   ((instance_types_only_narrow Demo.collaborators (fun _ _ _ => List.filter_sublist _)
      Demo.node).2.1 _).1⟩

end SequenceClaims

section RequirementClaims

variable {T : Types} (E : Collaborators T)

theorem intersectAllowed_narrows {a : Set String} (b : Option (Set String)) :
    ∃ after, intersectAllowed (some a) b = some after ∧ after ⊆ a := by
  cases b with
  | none => exact ⟨a, rfl, subset_rfl⟩
  | some b => exact ⟨a ∩ b, rfl, Set.inter_subset_left⟩

/-- C8, monotonic narrowing of the requirements: read requirement sets as maps from
key to allowed-value set, with `Requirements.Add` intersecting per key.  Then for a
key the node constrains, the node still constrains it after an `Add` call, to a
subset of the values allowed before; the same holds after any sequence of calls. -/
theorem requirements_never_relax
    (allowed : T.ReqSet → String → Option (Set String))
    (hadd : AddIsPerKeyIntersection E allowed)
    (n : Node T) (key : String) (before : Set String)
    (hkey : allowed n.Provisioner.Spec.Requirements key = some before) :
    (∀ topology pod, ∃ after,
      allowed (Node.Add E n topology pod).node.Provisioner.Spec.Requirements key = some after ∧
      after ⊆ before) ∧
    (∀ calls, ∃ after,
      allowed (Node.AddAll E n calls).Provisioner.Spec.Requirements key = some after ∧
      after ⊆ before) := by
  have one : ∀ (m : Node T) (s : Set String),
      allowed m.Provisioner.Spec.Requirements key = some s → ∀ topology pod, ∃ after,
        allowed (Node.Add E m topology pod).node.Provisioner.Spec.Requirements key = some after ∧
        after ⊆ s := by
    intro m s hm t p
    rcases Node.Add_node E m t p with ⟨_, hnode⟩ | ⟨_, tightened, _, hnode⟩
    · rw [hnode]; exact ⟨s, hm, subset_rfl⟩
    · rw [hnode]
      show ∃ after, allowed (Node.finalRequirements E m tightened) key = some after ∧ after ⊆ s
      rw [Node.finalRequirements, hadd, hm]
      exact intersectAllowed_narrows _
  refine ⟨one n before hkey, ?_⟩
  intro calls
  induction calls generalizing n before with
  | nil => exact ⟨before, hkey, subset_rfl⟩
  | cons c calls ih =>
    obtain ⟨t, p⟩ := c
    obtain ⟨mid, hmid, hsub⟩ := one n before hkey t p
    obtain ⟨after, hafter, hsub'⟩ := ih _ mid hmid
    exact ⟨after, hafter, hsub'.trans hsub⟩

end RequirementClaims


theorem intersectAllowed_none (a : Option (Set String)) : intersectAllowed a none = a := by
  cases a <;> rfl

theorem intersectAllowed_assoc (a b c : Option (Set String)) :
    intersectAllowed (intersectAllowed a b) c = intersectAllowed a (intersectAllowed b c) := by
  cases a <;> cases b <;> cases c <;> simp [intersectAllowed, Set.inter_assoc]

namespace Demo

theorem narrow_asSet (key : String) (acc : Option (List String)) (q : NodeSelectorRequirement) :
    asSet (narrow key acc q) = intersectAllowed (asSet acc) (asSet (narrow key none q)) := by
  unfold narrow asSet
  by_cases h : q.Key = key ∧ q.Operator = NodeSelectorOpIn
  · simp only [h, and_self, if_true]
    cases acc with
    | none => rfl
    | some vs =>
      simp only [Option.map_some', intersectAllowed]
      congr 1
      ext v
      simp [List.mem_filter]
  · simp only [h, if_false]
    cases acc <;> rfl

theorem foldl_narrow_asSet (key : String) (s : List NodeSelectorRequirement)
    (acc : Option (List String)) :
    asSet (s.foldl (narrow key) acc)
      = intersectAllowed (asSet acc) (asSet (s.foldl (narrow key) none)) := by
  induction s generalizing acc with
  | nil => exact (intersectAllowed_none _).symm
  | cons q s ih =>
    simp only [List.foldl_cons]
    rw [ih (narrow key acc q), ih (narrow key none q), narrow_asSet key acc q,
      intersectAllowed_assoc]

/-- On the concrete requirement sets `Add` is per-key intersection. -/
theorem add_is_per_key_intersection : AddIsPerKeyIntersection collaborators allowedSet := by
  intro r other key
  show asSet ((r ++ other).foldl (narrow key) none) = _
  rw [List.foldl_append, foldl_narrow_asSet]
  rfl

end Demo

/-- On the concrete node, which allows zone `us-east-1a` only, admitting a pod that
is spread over the zones leaves the zone constrained, to a subset of that. -/
theorem requirements_never_relax_witness :
    AddIsPerKeyIntersection Demo.collaborators Demo.allowedSet ∧
    Demo.allowedSet Demo.node.Provisioner.Spec.Requirements "zone" = some {v | v ∈ ["us-east-1a"]} ∧
    ∃ after,
      Demo.allowedSet (Node.Add Demo.collaborators Demo.node Demo.nodeTracker
        Demo.podSpread).node.Provisioner.Spec.Requirements "zone" = some after ∧
      after ⊆ {v | v ∈ ["us-east-1a"]} :=
  ⟨Demo.add_is_per_key_intersection, rfl,
   (requirements_never_relax Demo.collaborators Demo.allowedSet Demo.add_is_per_key_intersection
      Demo.node "zone" _ rfl).1 Demo.nodeTracker Demo.podSpread⟩


/-! ## Claims about `Node.String` and `NewNode` -/

section RenderingClaims

variable {T : Types} (E : Collaborators T)

/-- The loop of `Node.String` builds the list of names the specification words. -/
theorem instanceTypesLoop_eq_describedTypes (l : List T.InstanceType) :
    instanceTypesLoop E l.length 0 l "" = describedTypes (l.map E.Name) := by
  match l with
  | [] => simp [instanceTypesLoop, describedTypes, String.intercalate]
  | [a] => simp [instanceTypesLoop, describedTypes, String.intercalate, String.intercalate.go]
  | [a, b] =>
    simp [instanceTypesLoop, describedTypes, String.intercalate, String.intercalate.go]
  | [a, b, c] =>
    simp [instanceTypesLoop, describedTypes, String.intercalate, String.intercalate.go,
      String.append_assoc]
  | [a, b, c, d] =>
    simp [instanceTypesLoop, describedTypes, String.intercalate, String.intercalate.go,
      String.append_assoc]
  | [a, b, c, d, e] =>
    simp [instanceTypesLoop, describedTypes, String.intercalate, String.intercalate.go,
      String.append_assoc]
  | a :: b :: c :: d :: e :: f :: rest =>
    simp [instanceTypesLoop, describedTypes, String.intercalate, String.intercalate.go,
      String.append_assoc]

/-- C9, diagnostic rendering: for a node with `p` pods, resource total `q` and `k`
instance type options, `Node.String` returns
`"node with p pods requesting <resources.String(q)> from types L"`, `L` being the
first `min k 5` names joined by `", "` and followed by `" and N other(s)"`,
`N = k - 5`, exactly when `k > 5`; the names shown plus `N` make `k`; and the node
after the call is the node before it. -/
theorem string_renders_summary (n : Node T) :
    (Node.String E n).1
      = "node with " ++ Nat.repr n.Pods.length ++ " pods requesting "
          ++ E.ResourcesString n.requests ++ " from types "
          ++ describedTypes (n.InstanceTypeOptions.map E.Name) ∧
    ((n.InstanceTypeOptions.map E.Name).take 5).length = min n.InstanceTypeOptions.length 5 ∧
    ((n.InstanceTypeOptions.map E.Name).take 5).length + (n.InstanceTypeOptions.length - 5)
      = n.InstanceTypeOptions.length ∧
    (Node.String E n).2 = n := by
  refine ⟨?_, ?_, ?_, rfl⟩
  · simp only [Node.String, instanceTypesLoop_eq_describedTypes]
  · simp [Nat.min_comm]
  · simp only [List.length_take, List.length_map]
    omega

/-- The text for the concrete node of three types with no pod yet, and for the one
of seven types, where two names are left out. -/
theorem string_renders_summary_witness :
    (Node.String Demo.collaborators Demo.node).1
      = "node with 0 pods requesting 1 cpu from types small, medium, large" ∧
    (Node.String Demo.collaborators Demo.nodeOfSeven).1
      = "node with 0 pods requesting 1 cpu from types t1, t2, t3, t4, t5 and 2 other(s)" :=
  ⟨(string_renders_summary Demo.collaborators Demo.node).1.trans (by decide),
   (string_renders_summary Demo.collaborators Demo.nodeOfSeven).1.trans (by decide)⟩

/-- C10, postconditions of `NewNode`: the counter is incremented; the node's
`Hostname` is the identity rendered from the incremented counter; its requirement
set is the template's with the requirement (hostname key, `In`, `[Hostname]`) added
by `Requirements.Add`; its taints are the template's; its resource total is the
given baseline; its pod list is empty; its instance type options are the given
list; and the tracker is in the state of one `Register(hostname key, Hostname)`
call on the state it was given. -/
theorem newNode_postconditions (nodeID : Int) (provisioner : Provisioner T)
    (topology : T.Topology) (daemonResources : T.ResourceList)
    (instanceTypes : List T.InstanceType) :
    (NewNode E nodeID provisioner topology daemonResources instanceTypes).nodeID
      = wrapInt64 (nodeID + 1) ∧
    (NewNode E nodeID provisioner topology daemonResources instanceTypes).node.Hostname
      = "hostname-placeholder-" ++ format04d (wrapInt64 (nodeID + 1)) ∧
    (NewNode E nodeID provisioner topology daemonResources
        instanceTypes).node.Provisioner.Spec.Requirements
      = E.Add provisioner.Spec.Requirements
          [{ Key := LabelHostname, Operator := NodeSelectorOpIn
             Values := [(NewNode E nodeID provisioner topology daemonResources
                          instanceTypes).node.Hostname] }] ∧
    (NewNode E nodeID provisioner topology daemonResources
        instanceTypes).node.Provisioner.Spec.Taints = provisioner.Spec.Taints ∧
    (NewNode E nodeID provisioner topology daemonResources instanceTypes).node.requests
      = daemonResources ∧
    (NewNode E nodeID provisioner topology daemonResources instanceTypes).node.Pods = [] ∧
    (NewNode E nodeID provisioner topology daemonResources
        instanceTypes).node.InstanceTypeOptions = instanceTypes ∧
    (NewNode E nodeID provisioner topology daemonResources instanceTypes).topology
      = E.Register topology LabelHostname
          (NewNode E nodeID provisioner topology daemonResources instanceTypes).node.Hostname :=
  ⟨rfl, rfl, rfl, rfl, rfl, rfl, rfl, rfl⟩

/-- The first node of a process, on the concrete collaborators. -/
theorem newNode_postconditions_witness :
    Demo.node.Hostname = "hostname-placeholder-0001" ∧
    Demo.node.Provisioner.Spec.Requirements
      = [{ Key := "zone", Operator := "In", Values := ["us-east-1a"] },
         { Key := "kubernetes.io/hostname", Operator := "In"
           Values := ["hostname-placeholder-0001"] }] ∧
    Demo.nodeTracker.Domains
      = [("zone", "us-east-1a"), ("zone", "us-east-1b"),
         ("kubernetes.io/hostname", "hostname-placeholder-0001")] :=
  ⟨(newNode_postconditions Demo.collaborators 0 Demo.template Demo.tracker 1
      Demo.instanceTypes).2.1.trans (by decide),
   (newNode_postconditions Demo.collaborators 0 Demo.template Demo.tracker 1
      Demo.instanceTypes).2.2.1.trans (by decide),
   by
    have h := (newNode_postconditions Demo.collaborators 0 Demo.template Demo.tracker 1
      Demo.instanceTypes).2.2.2.2.2.2.2
    exact (congrArg Demo.Topology.Domains h).trans (by decide)⟩

end RenderingClaims

/-! ## The rendering of the counter -/

theorem toDigitsCore_append (f n : Nat) (ds : List Char) :
    Nat.toDigitsCore 10 f n ds = Nat.toDigitsCore 10 f n [] ++ ds := by
  induction f generalizing n ds with
  | zero => simp [Nat.toDigitsCore]
  | succ f ih =>
    simp only [Nat.toDigitsCore]
    split
    · simp
    · rw [ih (n / 10) (Nat.digitChar (n % 10) :: ds), ih (n / 10) [Nat.digitChar (n % 10)]]
      simp

theorem digitChar_value (m : Nat) (h : m < 10) : (Nat.digitChar m).toNat - 48 = m := by
  interval_cases m <;> rfl

theorem digitChar_ne_minus (m : Nat) (h : m < 10) : Nat.digitChar m ≠ '-' := by
  interval_cases m <;> decide

theorem decimalValue_append (l : List Char) (c : Char) :
    decimalValue (l ++ [c]) = 10 * decimalValue l + (c.toNat - 48) := by
  simp [decimalValue, List.foldl_append]

theorem decimalValue_toDigitsCore (f n : Nat) (h : n < f) :
    decimalValue (Nat.toDigitsCore 10 f n []) = n := by
  induction f generalizing n with
  | zero => omega
  | succ f ih =>
    simp only [Nat.toDigitsCore]
    split
    · rename_i h0
      have : n < 10 := by omega
      simp only [decimalValue, List.foldl_cons, List.foldl_nil]
      rw [digitChar_value _ (Nat.mod_lt _ (by omega))]
      omega
    · rename_i h0
      rw [toDigitsCore_append, decimalValue_append, ih (n / 10) (by omega),
        digitChar_value _ (Nat.mod_lt _ (by omega))]
      omega

theorem decimalValue_repr (n : Nat) : decimalValue (Nat.repr n).data = n := by
  show decimalValue (Nat.toDigitsCore 10 (n + 1) n []) = n
  exact decimalValue_toDigitsCore _ _ (by omega)

theorem toDigitsCore_no_minus (f n : Nat) (ds : List Char) (h : ∀ c ∈ ds, c ≠ '-') :
    ∀ c ∈ Nat.toDigitsCore 10 f n ds, c ≠ '-' := by
  induction f generalizing n ds with
  | zero => simpa [Nat.toDigitsCore] using h
  | succ f ih =>
    simp only [Nat.toDigitsCore]
    have h' : ∀ c ∈ Nat.digitChar (n % 10) :: ds, c ≠ '-' := by
      intro c hc
      rcases List.mem_cons.mp hc with rfl | hc
      · exact digitChar_ne_minus _ (Nat.mod_lt _ (by omega))
      · exact h c hc
    split
    · exact h'
    · exact ih _ _ h'

theorem zeroPad_data (width : Nat) (digits : String) :
    (zeroPad width digits).data = List.replicate (width - digits.length) '0' ++ digits.data := by
  simp [zeroPad]

theorem decimalValue_zeros (k : Nat) (l : List Char) :
    decimalValue (List.replicate k '0' ++ l) = decimalValue l := by
  have : ∀ k, List.foldl (fun acc (c : Char) => 10 * acc + (c.toNat - 48)) 0
      (List.replicate k '0') = 0 := by
    intro k
    induction k with
    | zero => rfl
    | succ k ih => simp [List.replicate_succ, List.foldl_cons]; exact ih
  simp [decimalValue, List.foldl_append, this]

theorem decimalValue_zeroPad (width n : Nat) :
    decimalValue (zeroPad width (Nat.repr n)).data = n := by
  rw [zeroPad_data, decimalValue_zeros, decimalValue_repr]

theorem zeroPad_no_minus (width n : Nat) : '-' ∉ (zeroPad width (Nat.repr n)).data := by
  rw [zeroPad_data]
  intro h
  rcases List.mem_append.mp h with h | h
  · have := List.eq_of_mem_replicate h
    exact absurd this (by decide)
  · exact toDigitsCore_no_minus (n + 1) n [] (by simp) _ h rfl

/-- The verb `%04d` gives different integers different texts. -/
theorem format04d_injective : Function.Injective format04d := by
  intro a b h
  unfold format04d at h
  by_cases ha : a < 0 <;> by_cases hb : b < 0
  · simp only [ha, hb, if_true] at h
    have h1 : (zeroPad 3 (Nat.repr a.natAbs)).data = (zeroPad 3 (Nat.repr b.natAbs)).data := by
      have := congrArg String.data h
      simpa using this
    have h2 := congrArg decimalValue h1
    rw [decimalValue_zeroPad, decimalValue_zeroPad] at h2
    omega
  · simp only [ha, hb, if_true, if_false] at h
    have : '-' ∈ (zeroPad 4 (Nat.repr b.natAbs)).data := by
      rw [← h]; simp
    exact absurd this (zeroPad_no_minus _ _)
  · simp only [ha, hb, if_true, if_false] at h
    have : '-' ∈ (zeroPad 4 (Nat.repr a.natAbs)).data := by
      rw [h]; simp
    exact absurd this (zeroPad_no_minus _ _)
  · simp only [ha, hb, if_false] at h
    have h2 := congrArg (fun s => decimalValue s.data) h
    simp only [decimalValue_zeroPad] at h2
    omega

theorem hostname_injective (a b : Int)
    (h : "hostname-placeholder-" ++ format04d a = "hostname-placeholder-" ++ format04d b) :
    a = b := by
  apply format04d_injective
  have := congrArg String.data h
  simp only [String.data_append, List.append_cancel_left_eq] at this
  exact String.ext this

/-! ## The counter over a run of `NewNode` calls -/

theorem wrapInt64_add_wrapInt64 (x k : Int) : wrapInt64 (wrapInt64 x + k) = wrapInt64 (x + k) := by
  unfold wrapInt64
  norm_num
  omega

theorem wrapInt64_eq_iff (x y : Int) :
    wrapInt64 x = wrapInt64 y ↔ (x - y) % 18446744073709551616 = 0 := by
  unfold wrapInt64
  norm_num
  omega

section Identities

variable {T : Types} (E : Collaborators T)

/-- The identities a run of `NewNode` calls gives out: the `i`-th call, counting
from 0, renders the counter it started from plus `i + 1`, wrapped to 64 bits. -/
theorem NewNodes_hostnames (nodeID : Int)
    (calls : List (Provisioner T × T.Topology × T.ResourceList × List T.InstanceType)) :
    (NewNodes E nodeID calls).1.map Node.Hostname
      = (List.range calls.length).map
          (fun i : Nat => "hostname-placeholder-" ++ format04d (wrapInt64 (nodeID + i + 1))) := by
  induction calls generalizing nodeID with
  | nil => rfl
  | cons c calls ih =>
    obtain ⟨provisioner, topology, daemonResources, instanceTypes⟩ := c
    simp only [NewNodes, List.map_cons, List.length_cons, List.range_succ_eq_map, ih,
      List.map_map]
    refine congrArg₂ _ ?_ ?_
    · show "hostname-placeholder-" ++ format04d (wrapInt64 (nodeID + 1)) = _
      simp
    · apply List.map_congr_left
      intro i _
      show "hostname-placeholder-" ++ format04d (wrapInt64 (wrapInt64 (nodeID + 1) + i + 1)) = _
      simp only [Function.comp, Nat.succ_eq_add_one, Nat.cast_add, Nat.cast_one]
      rw [add_assoc (wrapInt64 (nodeID + 1)), wrapInt64_add_wrapInt64]
      congr 3
      ring

/-- The counter after a run of calls, up to the wrap to 64 bits. -/
theorem NewNodes_counter (nodeID : Int)
    (calls : List (Provisioner T × T.Topology × T.ResourceList × List T.InstanceType)) :
    wrapInt64 (NewNodes E nodeID calls).2 = wrapInt64 (nodeID + calls.length) := by
  induction calls generalizing nodeID with
  | nil => simp [NewNodes]
  | cons c calls ih =>
    obtain ⟨provisioner, topology, daemonResources, instanceTypes⟩ := c
    simp only [NewNodes, List.length_cons, Nat.cast_add, Nat.cast_one]
    rw [ih]
    show wrapInt64 (wrapInt64 (nodeID + 1) + _) = _
    rw [wrapInt64_add_wrapInt64]
    congr 1
    ring

/-- C11, identity uniqueness: the nodes a run of `NewNode` calls makes have pairwise
distinct identities, in every run of at most `2 ^ 64` calls, the number of values of
the 64 bit counter (a process, which starts the counter at 0, makes fewer).  The
`i`-th call renders the counter it started from plus `i + 1`: one increment per
call and no reset, so the calls take pairwise distinct counter values; while the
counter stays below `2 ^ 63` these are the plain sums.  The rendering
`"hostname-placeholder-%04d"` is injective on all integers, those of 10000 and
above included. -/
theorem newNodes_identities_distinct (nodeID : Int)
    (calls : List (Provisioner T × T.Topology × T.ResourceList × List T.InstanceType))
    (h : calls.length ≤ 2 ^ 64) :
    ((NewNodes E nodeID calls).1.map Node.Hostname).Nodup ∧
    (NewNodes E nodeID calls).1.map Node.Hostname
      = (List.range calls.length).map
          (fun i : Nat => "hostname-placeholder-" ++ format04d (wrapInt64 (nodeID + i + 1))) ∧
    ((List.range calls.length).map (fun i : Nat => wrapInt64 (nodeID + i + 1))).Nodup ∧
    (0 ≤ nodeID → nodeID + calls.length < 2 ^ 63 →
      ∀ i : Nat, i < calls.length → wrapInt64 (nodeID + i + 1) = nodeID + i + 1) ∧
    (∀ a b : Int,
      "hostname-placeholder-" ++ format04d a = "hostname-placeholder-" ++ format04d b → a = b) := by
  have hinj : ∀ i ∈ List.range calls.length, ∀ j ∈ List.range calls.length,
      wrapInt64 (nodeID + i + 1) = wrapInt64 (nodeID + j + 1) → i = j := by
    intro i hi j hj hij
    have hi' := List.mem_range.mp hi
    have hj' := List.mem_range.mp hj
    have := (wrapInt64_eq_iff _ _).mp hij
    norm_num at h
    omega
  refine ⟨?_, NewNodes_hostnames E nodeID calls, ?_, ?_, hostname_injective⟩
  · rw [NewNodes_hostnames]
    refine List.Nodup.map_on ?_ (List.nodup_range _)
    intro i hi j hj hij
    exact hinj i hi j hj (hostname_injective _ _ hij)
  · exact List.Nodup.map_on hinj (List.nodup_range _)
  · intro h0 hfit i hi
    unfold wrapInt64
    norm_num at hfit ⊢
    omega

end Identities

/-- The first three nodes of a process, and two calls from counter 9998, which give
the identities of 9999 and of 10000. -/
theorem newNodes_identities_distinct_witness :
    [Demo.template, Demo.template, Demo.template].length ≤ 2 ^ 64 ∧
    (NewNodes Demo.collaborators 0
        [(Demo.template, Demo.tracker, 1, Demo.instanceTypes),
         (Demo.template, Demo.tracker, 1, Demo.instanceTypes),
         (Demo.template, Demo.tracker, 1, Demo.instanceTypes)]).1.map Node.Hostname
      = ["hostname-placeholder-0001", "hostname-placeholder-0002",
         "hostname-placeholder-0003"] ∧
    (NewNodes Demo.collaborators 9998
        [(Demo.template, Demo.tracker, 1, Demo.instanceTypes),
         (Demo.template, Demo.tracker, 1, Demo.instanceTypes)]).1.map Node.Hostname
      = ["hostname-placeholder-9999", "hostname-placeholder-10000"] :=
  ⟨by decide,
   (newNodes_identities_distinct Demo.collaborators 0
      [(Demo.template, Demo.tracker, 1, Demo.instanceTypes),
       (Demo.template, Demo.tracker, 1, Demo.instanceTypes),
       (Demo.template, Demo.tracker, 1, Demo.instanceTypes)] (by decide)).2.1.trans (by decide),
   (newNodes_identities_distinct Demo.collaborators 9998
      [(Demo.template, Demo.tracker, 1, Demo.instanceTypes),
       (Demo.template, Demo.tracker, 1, Demo.instanceTypes)] (by decide)).2.1.trans (by decide)⟩

/-! ## The width of the identities -/

theorem zeroPad_length (width : Nat) (digits : String) (h : digits.length ≤ width) :
    (zeroPad width digits).length = width := by
  simp only [zeroPad, String.length_append, String.length_mk, List.length_replicate]
  omega

theorem zeroPad_of_long (width : Nat) (digits : String) (h : width ≤ digits.length) :
    zeroPad width digits = digits := by
  apply String.ext
  rw [zeroPad_data, Nat.sub_eq_zero_of_le h]
  rfl

theorem zeroPad_length_ge (width : Nat) (digits : String) :
    width ≤ (zeroPad width digits).length := by
  simp only [zeroPad, String.length_append, String.length_mk, List.length_replicate]
  omega

/-- A number of at least `10 ^ k` has more than `k` decimal digits. -/
theorem toDigitsCore_length_gt (k : Nat) :
    ∀ (f n : Nat) (ds : List Char), n < f → 10 ^ k ≤ n →
      k + 1 + ds.length ≤ (Nat.toDigitsCore 10 f n ds).length := by
  induction k with
  | zero =>
    intro f n ds hf hn
    cases f with
    | zero => omega
    | succ f =>
      simp only [Nat.toDigitsCore]
      split
      · simp only [List.length_cons]
        omega
      · rw [toDigitsCore_append]
        simp only [List.length_append, List.length_cons]
        omega
  | succ k ih =>
    intro f n ds hf hn
    cases f with
    | zero => omega
    | succ f =>
      have h10 : 10 ^ (k + 1) = 10 * 10 ^ k := by rw [pow_succ, Nat.mul_comm]
      have hpos : 0 < 10 ^ k := Nat.pow_pos (by decide)
      have hdiv : 10 ^ k ≤ n / 10 := by omega
      simp only [Nat.toDigitsCore]
      split
      · omega
      · have := ih f (n / 10) (Nat.digitChar (n % 10) :: ds) (by omega) hdiv
        simp only [List.length_cons] at this
        omega

theorem repr_length_gt (n k : Nat) (h : 10 ^ k ≤ n) : k < (Nat.repr n).length := by
  have := toDigitsCore_length_gt k (n + 1) n [] (by omega) h
  have hlen : (Nat.repr n).length = (Nat.toDigitsCore 10 (n + 1) n []).length := rfl
  rw [hlen]
  simpa using this

theorem format04d_length (c : Int) (hlow : -999 ≤ c) (hhigh : c ≤ 9999) :
    (format04d c).length = 4 := by
  unfold format04d
  split
  · have : (Nat.repr c.natAbs).length ≤ 3 := Nat.repr_length _ 3 (by decide) (by omega)
    rw [String.length_append, zeroPad_length _ _ this]
    rfl
  · have : (Nat.repr c.natAbs).length ≤ 4 := Nat.repr_length _ 4 (by decide) (by omega)
    exact zeroPad_length _ _ this

/-- From 10000 on `%04d` writes the decimal in full, in more than four digits. -/
theorem format04d_of_large (c : Int) (h : 10000 ≤ c) :
    format04d c = Nat.repr c.natAbs ∧ 4 < (format04d c).length := by
  have hlen : 4 < (Nat.repr c.natAbs).length := repr_length_gt _ 4 (by omega)
  have hfmt : format04d c = Nat.repr c.natAbs := by
    unfold format04d
    rw [if_neg (by omega)]
    exact zeroPad_of_long _ _ (by omega)
  exact ⟨hfmt, by rw [hfmt]; exact hlen⟩

/-- Below -999 the minus sign and the digits take more than four characters. -/
theorem format04d_of_small (c : Int) (h : c < -999) : 4 < (format04d c).length := by
  have hlen : 3 < (Nat.repr c.natAbs).length := repr_length_gt _ 3 (by omega)
  unfold format04d
  rw [if_pos (by omega), String.length_append, zeroPad_of_long _ _ (by omega)]
  have : ("-" : String).length = 1 := rfl
  omega

section Width

variable {T : Types} (E : Collaborators T)

/-- C12, as amended: the identity `NewNode` renders is the prefix
`"hostname-placeholder-"` followed by the `%04d` rendering of the incremented
counter.  The identity has the length 25 exactly when the counter is between -999
and 9999, and the field then has exactly four characters; for every other counter
value the identity is longer than 25, and from 10000 on the field is the decimal of
the counter written in full, without padding, in more than four characters. -/
theorem identity_has_four_digit_field (nodeID : Int) (provisioner : Provisioner T)
    (topology : T.Topology) (daemonResources : T.ResourceList)
    (instanceTypes : List T.InstanceType) :
    (NewNode E nodeID provisioner topology daemonResources instanceTypes).node.Hostname
      = "hostname-placeholder-" ++ format04d (wrapInt64 (nodeID + 1)) ∧
    (-999 ≤ wrapInt64 (nodeID + 1) → wrapInt64 (nodeID + 1) ≤ 9999 →
      (format04d (wrapInt64 (nodeID + 1))).length = 4 ∧
      (NewNode E nodeID provisioner topology daemonResources instanceTypes).node.Hostname.length
        = 25) ∧
    (10000 ≤ wrapInt64 (nodeID + 1) →
      format04d (wrapInt64 (nodeID + 1)) = Nat.repr (wrapInt64 (nodeID + 1)).natAbs ∧
      4 < (format04d (wrapInt64 (nodeID + 1))).length ∧
      25 < (NewNode E nodeID provisioner topology daemonResources
              instanceTypes).node.Hostname.length) ∧
    (wrapInt64 (nodeID + 1) < -999 →
      25 < (NewNode E nodeID provisioner topology daemonResources
              instanceTypes).node.Hostname.length) ∧
    ((NewNode E nodeID provisioner topology daemonResources instanceTypes).node.Hostname.length
        = 25 ↔ -999 ≤ wrapInt64 (nodeID + 1) ∧ wrapInt64 (nodeID + 1) ≤ 9999) := by
  have hlen : (NewNode E nodeID provisioner topology daemonResources
      instanceTypes).node.Hostname.length = 21 + (format04d (wrapInt64 (nodeID + 1))).length := by
    show ("hostname-placeholder-" ++ format04d (wrapInt64 (nodeID + 1))).length = _
    rw [String.length_append]
    rfl
  have hin : -999 ≤ wrapInt64 (nodeID + 1) → wrapInt64 (nodeID + 1) ≤ 9999 →
      (format04d (wrapInt64 (nodeID + 1))).length = 4 := format04d_length _
  have hlarge := format04d_of_large (wrapInt64 (nodeID + 1))
  have hsmall := format04d_of_small (wrapInt64 (nodeID + 1))
  refine ⟨rfl, ?_, ?_, ?_, ?_⟩
  · intro h1 h2
    exact ⟨hin h1 h2, by rw [hlen, hin h1 h2]⟩
  · intro h
    exact ⟨(hlarge h).1, (hlarge h).2, by rw [hlen]; have := (hlarge h).2; omega⟩
  · intro h
    rw [hlen]
    have := hsmall h
    omega
  · constructor
    · intro h25
      by_contra hout
      have hcases : wrapInt64 (nodeID + 1) < -999 ∨ 10000 ≤ wrapInt64 (nodeID + 1) := by omega
      rcases hcases with h | h
      · have := hsmall h
        omega
      · have := (hlarge h).2
        omega
    · rintro ⟨h1, h2⟩
      rw [hlen, hin h1 h2]

end Width

/-- The 42nd node of a process, whose field is `0042`, and the 12345th, whose field
is the five digits of the counter. -/
theorem identity_has_four_digit_field_witness :
    (NewNode Demo.collaborators 41 Demo.template Demo.tracker 1
        Demo.instanceTypes).node.Hostname = "hostname-placeholder-0042" ∧
    (NewNode Demo.collaborators 41 Demo.template Demo.tracker 1
        Demo.instanceTypes).node.Hostname.length = 25 ∧
    (NewNode Demo.collaborators 12344 Demo.template Demo.tracker 1
        Demo.instanceTypes).node.Hostname = "hostname-placeholder-12345" ∧
    25 < (NewNode Demo.collaborators 12344 Demo.template Demo.tracker 1
        Demo.instanceTypes).node.Hostname.length :=
  ⟨(identity_has_four_digit_field Demo.collaborators 41 Demo.template Demo.tracker 1
      Demo.instanceTypes).1.trans (by decide),
   ((identity_has_four_digit_field Demo.collaborators 41 Demo.template Demo.tracker 1
      Demo.instanceTypes).2.1 (by decide) (by decide)).2,
   (identity_has_four_digit_field Demo.collaborators 12344 Demo.template Demo.tracker 1
      Demo.instanceTypes).1.trans (by decide),
   ((identity_has_four_digit_field Demo.collaborators 12344 Demo.template Demo.tracker 1
      Demo.instanceTypes).2.2.1 (by decide)).2.2⟩

/-- C12 as stated fails from the 10000th node on: its identity has a field of five
digits and is one character longer than the identity of the first node. -/
theorem identity_of_node_10000_is_longer :
    (NewNode Demo.collaborators 9999 Demo.template Demo.tracker 1
        Demo.instanceTypes).node.Hostname = "hostname-placeholder-10000" ∧
    (NewNode Demo.collaborators 0 Demo.template Demo.tracker 1
        Demo.instanceTypes).node.Hostname = "hostname-placeholder-0001" ∧
    (NewNode Demo.collaborators 9999 Demo.template Demo.tracker 1
        Demo.instanceTypes).node.Hostname.length
      ≠ (NewNode Demo.collaborators 0 Demo.template Demo.tracker 1
          Demo.instanceTypes).node.Hostname.length := by
  refine ⟨by decide, by decide, by decide⟩

/-! ## Which provisioner objects the calls write -/

section Pointers

variable {T : Types} (E : Collaborators T)

theorem Heap.setRequirements_cell_of_ne (heap : Heap T) (p q : Nat) (r : T.ReqSet)
    (h : q ≠ p) : (heap.setRequirements p r).cell q = heap.cell q := by
  simp [Heap.setRequirements, Function.update_noteq h]

/-- On pointers `Node.Add` does what it does on values: the error and the tracker
state are those of `Node.Add` on the node read through the pointer, and so is the
node read through the pointer afterwards; the pointer and the identity stay. -/
theorem NodeRef.Add_deref (heap : Heap T) (n : NodeRef T) (topology : T.Topology)
    (pod : T.Pod) :
    (NodeRef.Add E heap n topology pod).err = (Node.Add E (n.deref heap) topology pod).err ∧
    (NodeRef.Add E heap n topology pod).topology
      = (Node.Add E (n.deref heap) topology pod).topology ∧
    (NodeRef.Add E heap n topology pod).node.deref (NodeRef.Add E heap n topology pod).heap
      = (Node.Add E (n.deref heap) topology pod).node ∧
    (NodeRef.Add E heap n topology pod).node.Provisioner = n.Provisioner ∧
    (NodeRef.Add E heap n topology pod).node.Hostname = n.Hostname := by
  cases h1 : E.Tolerates (heap.cell n.Provisioner).Spec.Taints pod with
  | some e => simp [NodeRef.Add, Node.Add, NodeRef.deref, h1]
  | none =>
    cases h2 : E.Compatible (heap.cell n.Provisioner).Spec.Requirements
        (E.NewPodRequirements pod) with
    | some e => simp [NodeRef.Add, Node.Add, NodeRef.deref, h1, h2]
    | none =>
      rcases h3 : E.AddRequirements topology (E.NewPodRequirements pod)
        (E.Add (heap.cell n.Provisioner).Spec.Requirements
          (E.Requirements (E.NewPodRequirements pod))) pod with ⟨r, t1⟩
      cases r with
      | error e => simp [NodeRef.Add, Node.Add, NodeRef.deref, h1, h2, h3]
      | ok tightened =>
        cases h4 : E.Compatible (heap.cell n.Provisioner).Spec.Requirements tightened with
        | some e => simp [NodeRef.Add, Node.Add, NodeRef.deref, h1, h2, h3, h4]
        | none =>
          by_cases h5 : (E.FilterInstanceTypes n.InstanceTypeOptions
              (E.Add (heap.cell n.Provisioner).Spec.Requirements (E.Requirements tightened))
              (E.Merge n.requests (E.RequestsForPods pod))).length = 0
          · simp [NodeRef.Add, Node.Add, NodeRef.deref, h1, h2, h3, h4, h5]
          · simp [NodeRef.Add, Node.Add, NodeRef.deref, h1, h2, h3, h4, h5,
              Heap.setRequirements]

/-- A call of `Node.Add` writes no provisioner object but the node's own. -/
theorem NodeRef.Add_frame (heap : Heap T) (n : NodeRef T) (topology : T.Topology)
    (pod : T.Pod) (q : Nat) (hq : q ≠ n.Provisioner) :
    (NodeRef.Add E heap n topology pod).heap.cell q = heap.cell q := by
  cases h1 : E.Tolerates (heap.cell n.Provisioner).Spec.Taints pod with
  | some e => simp [NodeRef.Add, h1]
  | none =>
    cases h2 : E.Compatible (heap.cell n.Provisioner).Spec.Requirements
        (E.NewPodRequirements pod) with
    | some e => simp [NodeRef.Add, h1, h2]
    | none =>
      rcases h3 : E.AddRequirements topology (E.NewPodRequirements pod)
        (E.Add (heap.cell n.Provisioner).Spec.Requirements
          (E.Requirements (E.NewPodRequirements pod))) pod with ⟨r, t1⟩
      cases r with
      | error e => simp [NodeRef.Add, h1, h2, h3]
      | ok tightened =>
        cases h4 : E.Compatible (heap.cell n.Provisioner).Spec.Requirements tightened with
        | some e => simp [NodeRef.Add, h1, h2, h3, h4]
        | none =>
          by_cases h5 : (E.FilterInstanceTypes n.InstanceTypeOptions
              (E.Add (heap.cell n.Provisioner).Spec.Requirements (E.Requirements tightened))
              (E.Merge n.requests (E.RequestsForPods pod))).length = 0
          · simp [NodeRef.Add, h1, h2, h3, h4, h5]
          · simp [NodeRef.Add, h1, h2, h3, h4, h5, Heap.setRequirements,
              Function.update_noteq hq]

end Pointers

section PointerClaims

variable {T : Types} (E : Collaborators T)

/-- The node `NewNode` makes points to a newly allocated object, and no object
allocated before is written. -/
theorem NewNodeRef_frame (heap : Heap T) (nodeID : Int) (provisioner : Nat)
    (topology : T.Topology) (daemonResources : T.ResourceList)
    (instanceTypes : List T.InstanceType) :
    (NewNodeRef E heap nodeID provisioner topology daemonResources instanceTypes).node.Provisioner
      = heap.next ∧
    (NewNodeRef E heap nodeID provisioner topology daemonResources instanceTypes).heap.next
      = heap.next + 1 ∧
    ∀ q, q ≠ heap.next →
      (NewNodeRef E heap nodeID provisioner topology daemonResources instanceTypes).heap.cell q
        = heap.cell q := by
  refine ⟨rfl, rfl, ?_⟩
  intro q hq
  simp [NewNodeRef, Heap.setRequirements, Heap.DeepCopy, Function.update_noteq hq]

/-- On pointers `NewNode` makes the node it makes on values, from the value of the
template. -/
theorem NewNodeRef_deref (heap : Heap T) (nodeID : Int) (provisioner : Nat)
    (topology : T.Topology) (daemonResources : T.ResourceList)
    (instanceTypes : List T.InstanceType) :
    (NewNodeRef E heap nodeID provisioner topology daemonResources instanceTypes).node.deref
        (NewNodeRef E heap nodeID provisioner topology daemonResources instanceTypes).heap
      = (NewNode E nodeID (heap.cell provisioner) topology daemonResources instanceTypes).node := by
  simp [NewNodeRef, NewNode, NodeRef.deref, Heap.setRequirements, Heap.DeepCopy]

theorem NodeRef.AddAll_frame (heap : Heap T) (n : NodeRef T)
    (calls : List (T.Topology × T.Pod)) :
    (NodeRef.AddAll E heap n calls).1.Provisioner = n.Provisioner ∧
    ∀ q, q ≠ n.Provisioner → (NodeRef.AddAll E heap n calls).2.cell q = heap.cell q := by
  induction calls generalizing heap n with
  | nil => exact ⟨rfl, fun _ _ => rfl⟩
  | cons c calls ih =>
    obtain ⟨topology, pod⟩ := c
    obtain ⟨h1, h3⟩ := ih (NodeRef.Add E heap n topology pod).heap
      (NodeRef.Add E heap n topology pod).node
    have hp := (NodeRef.Add_deref E heap n topology pod).2.2.2.1
    refine ⟨h1.trans hp, ?_⟩
    · intro q hq
      rw [show NodeRef.AddAll E heap n ((topology, pod) :: calls)
        = NodeRef.AddAll E (NodeRef.Add E heap n topology pod).heap
            (NodeRef.Add E heap n topology pod).node calls from rfl]
      rw [h3 q (by rw [hp]; exact hq)]
      exact NodeRef.Add_frame E heap n topology pod q hq

theorem NodeRef.AddAll_deref (heap : Heap T) (n : NodeRef T)
    (calls : List (T.Topology × T.Pod)) :
    (NodeRef.AddAll E heap n calls).1.deref (NodeRef.AddAll E heap n calls).2
      = Node.AddAll E (n.deref heap) calls := by
  induction calls generalizing heap n with
  | nil => rfl
  | cons c calls ih =>
    obtain ⟨topology, pod⟩ := c
    simp only [NodeRef.AddAll, Node.AddAll]
    rw [ih, (NodeRef.Add_deref E heap n topology pod).2.2.1]

/-- C13, template isolation.  Let `template` point to an allocated provisioner
object, let a first and then a second node be made from it by `NewNode`, and let
any sequence of `Add` calls follow on one of the two nodes.  Then the template
object holds the value it held before the first `NewNode`: after each of the two
constructions and after the `Add` calls on either node; and the calls on one node
leave the other node as it was, read through its pointer: its requirement set, its
instance type options, its resource total and its pods. -/
theorem template_isolation (heap : Heap T) (template : Nat) (halloc : template < heap.next)
    (nodeID : Int) (topology1 topology2 : T.Topology) (baseline1 baseline2 : T.ResourceList)
    (instanceTypes1 instanceTypes2 : List T.InstanceType)
    (first second : NewNodeRefResult T)
    (hfirst : first = NewNodeRef E heap nodeID template topology1 baseline1 instanceTypes1)
    (hsecond : second
      = NewNodeRef E first.heap first.nodeID template topology2 baseline2 instanceTypes2)
    (calls : List (T.Topology × T.Pod)) :
    first.heap.cell template = heap.cell template ∧
    second.heap.cell template = heap.cell template ∧
    (NodeRef.AddAll E first.heap first.node calls).2.cell template = heap.cell template ∧
    (NodeRef.AddAll E second.heap first.node calls).2.cell template = heap.cell template ∧
    (NodeRef.AddAll E second.heap second.node calls).2.cell template = heap.cell template ∧
    second.node.deref (NodeRef.AddAll E second.heap first.node calls).2
      = second.node.deref second.heap ∧
    first.node.deref (NodeRef.AddAll E second.heap second.node calls).2
      = first.node.deref second.heap := by
  obtain ⟨hp1, hn1, hc1⟩ :=
    NewNodeRef_frame E heap nodeID template topology1 baseline1 instanceTypes1
  obtain ⟨hp2, hn2, hc2⟩ :=
    NewNodeRef_frame E first.heap first.nodeID template topology2 baseline2 instanceTypes2
  rw [← hfirst] at hp1 hn1 hc1
  rw [← hsecond] at hp2 hn2 hc2
  rw [hn1] at hp2
  have t1 : first.heap.cell template = heap.cell template := hc1 _ (by omega)
  have t2 : second.heap.cell template = heap.cell template := by
    rw [hc2 _ (by omega), t1]
  refine ⟨t1, t2, ?_, ?_, ?_, ?_, ?_⟩
  · rw [(NodeRef.AddAll_frame E first.heap first.node calls).2 _ (by omega), t1]
  · rw [(NodeRef.AddAll_frame E second.heap first.node calls).2 _ (by omega), t2]
  · rw [(NodeRef.AddAll_frame E second.heap second.node calls).2 _ (by omega), t2]
  · simp only [NodeRef.deref]
    rw [(NodeRef.AddAll_frame E second.heap first.node calls).2 _ (by omega)]
  · simp only [NodeRef.deref]
    rw [(NodeRef.AddAll_frame E second.heap second.node calls).2 _ (by omega)]

/-- Two nodes made from the concrete template, at pointer 0, and a pod admitted to
the first of them: the first node's requirements grew, the template object and the
second node did not change. -/
theorem template_isolation_witness :
    0 < Demo.heap.next ∧
    ((NodeRef.AddAll Demo.collaborators
        (NewNodeRef Demo.collaborators Demo.heap 0 0 Demo.tracker 1 Demo.instanceTypes).heap
        (NewNodeRef Demo.collaborators Demo.heap 0 0 Demo.tracker 1 Demo.instanceTypes).node
        [(Demo.nodeTracker, Demo.podFits)]).2.cell 1).Spec.Requirements.length = 4 ∧
    (NodeRef.AddAll Demo.collaborators
        (NewNodeRef Demo.collaborators Demo.heap 0 0 Demo.tracker 1 Demo.instanceTypes).heap
        (NewNodeRef Demo.collaborators Demo.heap 0 0 Demo.tracker 1 Demo.instanceTypes).node
        [(Demo.nodeTracker, Demo.podFits)]).2.cell 0 = Demo.template ∧
    (NewNodeRef Demo.collaborators
        (NewNodeRef Demo.collaborators Demo.heap 0 0 Demo.tracker 1 Demo.instanceTypes).heap
        (NewNodeRef Demo.collaborators Demo.heap 0 0 Demo.tracker 1 Demo.instanceTypes).nodeID
        0 Demo.tracker 1 Demo.sevenTypes).node.deref
      (NodeRef.AddAll Demo.collaborators
        (NewNodeRef Demo.collaborators
          (NewNodeRef Demo.collaborators Demo.heap 0 0 Demo.tracker 1 Demo.instanceTypes).heap
          (NewNodeRef Demo.collaborators Demo.heap 0 0 Demo.tracker 1 Demo.instanceTypes).nodeID
          0 Demo.tracker 1 Demo.sevenTypes).heap
        (NewNodeRef Demo.collaborators Demo.heap 0 0 Demo.tracker 1 Demo.instanceTypes).node
        [(Demo.nodeTracker, Demo.podFits)]).2
      = (NewNode Demo.collaborators 1 Demo.template Demo.tracker 1 Demo.sevenTypes).node :=
  ⟨by decide, by decide,
   (template_isolation Demo.collaborators Demo.heap 0 (by decide) 0 Demo.tracker Demo.tracker 1 1
      Demo.instanceTypes Demo.sevenTypes _ _ rfl rfl [(Demo.nodeTracker, Demo.podFits)]).2.2.1,
   ((template_isolation Demo.collaborators Demo.heap 0 (by decide) 0 Demo.tracker Demo.tracker 1 1
      Demo.instanceTypes Demo.sevenTypes _ _ rfl rfl
      [(Demo.nodeTracker, Demo.podFits)]).2.2.2.2.2.1).trans rfl⟩

end PointerClaims

/-! ## Repeating a rejected call -/

section Repetition

variable {T : Types} (E : Collaborators T)

/-- C14, idempotent rejection: if `Add` of a pod returns an error, then `Add` of
the same pod on the node the first call left, with the tracker in the state the
first call found it in, returns the same error, leaves the node unchanged once
more, and leaves the tracker as the first call left it. -/
theorem add_rejection_repeats (n : Node T) (topology : T.Topology) (pod : T.Pod)
    (e : GoError T.Err) (h : (Node.Add E n topology pod).err = some e) :
    (Node.Add E (Node.Add E n topology pod).node topology pod).err = some e ∧
    (Node.Add E (Node.Add E n topology pod).node topology pod).node
      = (Node.Add E n topology pod).node ∧
    (Node.Add E (Node.Add E n topology pod).node topology pod).node = n ∧
    (Node.Add E (Node.Add E n topology pod).node topology pod).topology
      = (Node.Add E n topology pod).topology := by
  have hnode : (Node.Add E n topology pod).node = n := by
    rcases Node.Add_node E n topology pod with ⟨_, hnode⟩ | ⟨herr, _⟩
    · exact hnode
    · rw [herr] at h
      exact absurd h (by simp)
  rw [hnode]
  exact ⟨h, hnode, hnode, rfl⟩

/-- The pod without the toleration, offered twice to the concrete node. -/
theorem add_rejection_repeats_witness :
    (Node.Add Demo.collaborators Demo.node Demo.nodeTracker Demo.podUntolerated).err
      = some (.ofCollaborator "did not tolerate key=A:NoSchedule") ∧
    (Node.Add Demo.collaborators
        (Node.Add Demo.collaborators Demo.node Demo.nodeTracker Demo.podUntolerated).node
        Demo.nodeTracker Demo.podUntolerated).err
      = some (.ofCollaborator "did not tolerate key=A:NoSchedule") :=
  ⟨by decide,
   (add_rejection_repeats Demo.collaborators Demo.node Demo.nodeTracker Demo.podUntolerated _
      (by decide)).1⟩

end Repetition

/-! ## The hostname requirement -/

section HostnamePin

variable {T : Types} (E : Collaborators T)

theorem Node.Add_hostname (n : Node T) (topology : T.Topology) (pod : T.Pod) :
    (Node.Add E n topology pod).node.Hostname = n.Hostname := by
  rcases Node.Add_node E n topology pod with ⟨_, hnode⟩ | ⟨_, tightened, _, hnode⟩ <;>
    rw [hnode]

/-- One `Add` call keeps the hostname requirement as it is. -/
theorem HostnamePinned.add (allowed : T.ReqSet → String → Option (Set String))
    (hadd : AddIsPerKeyIntersection E allowed)
    (hcompat : CompatibleNeedsCommonValues E allowed)
    (n : Node T) (hn : HostnamePinned allowed n) (topology : T.Topology) (pod : T.Pod) :
    HostnamePinned allowed (Node.Add E n topology pod).node := by
  have ho := Node.Add_outcome E n topology pod
  generalize Node.Add E n topology pod = r at ho
  cases ho with
  | committed tightened t1 h1 h2 h3 h4 h5 =>
    show allowed (Node.finalRequirements E n tightened) LabelHostname = some {n.Hostname}
    unfold HostnamePinned at hn
    rw [Node.finalRequirements, hadd, hn]
    cases hb : allowed tightened LabelHostname with
    | none => rfl
    | some b =>
      obtain ⟨v, hv1, hv2⟩ := hcompat _ _ h4 LabelHostname _ b hn hb
      have hv : v = n.Hostname := hv1
      subst hv
      simp only [intersectAllowed]
      congr 1
      ext w
      constructor
      · exact fun hw => hw.1
      · intro hw
        have hw' : w = n.Hostname := hw
        subst hw'
        exact ⟨rfl, hv2⟩
  | _ => exact hn

/-- C15, the hostname pin: read requirement sets as maps from key to allowed-value
set, with `Requirements.Add` intersecting per key and `Compatible` failing when some
key is left without a value.  For a node made by `NewNode` from a template that does
not constrain the hostname key, the node's requirement set constrains that key to
exactly the node's `Hostname`, right after construction and after every sequence of
`Add` calls, during which the `Hostname` stays the same; and two such nodes with
different identities have no allowed hostname value in common. -/
theorem hostname_stays_pinned (allowed : T.ReqSet → String → Option (Set String))
    (hadd : AddIsPerKeyIntersection E allowed)
    (hin : AddOfInIsIntersection E allowed)
    (hcompat : CompatibleNeedsCommonValues E allowed)
    (nodeID : Int) (provisioner : Provisioner T) (topology : T.Topology)
    (daemonResources : T.ResourceList) (instanceTypes : List T.InstanceType)
    (htemplate : allowed provisioner.Spec.Requirements LabelHostname = none) :
    HostnamePinned allowed
      (NewNode E nodeID provisioner topology daemonResources instanceTypes).node ∧
    (∀ calls,
      HostnamePinned allowed
        (Node.AddAll E (NewNode E nodeID provisioner topology daemonResources instanceTypes).node
          calls) ∧
      (Node.AddAll E (NewNode E nodeID provisioner topology daemonResources instanceTypes).node
          calls).Hostname
        = (NewNode E nodeID provisioner topology daemonResources instanceTypes).node.Hostname) ∧
    (∀ n m : Node T, HostnamePinned allowed n → HostnamePinned allowed m →
      n.Hostname ≠ m.Hostname →
      ∀ a b, allowed n.Provisioner.Spec.Requirements LabelHostname = some a →
        allowed m.Provisioner.Spec.Requirements LabelHostname = some b → a ∩ b = ∅) := by
  have h0 : HostnamePinned allowed
      (NewNode E nodeID provisioner topology daemonResources instanceTypes).node := by
    show allowed (E.Add provisioner.Spec.Requirements _) LabelHostname = some _
    rw [hin, htemplate]
    simp only [allowedByIn, if_true, intersectAllowed]
    congr 1
    ext w
    simp only [List.mem_singleton, Set.mem_setOf_eq, Set.mem_singleton_iff]
    exact Iff.rfl
  refine ⟨h0, ?_, ?_⟩
  · intro calls
    exact Node.AddAll_induction E
      (fun n => HostnamePinned allowed n ∧ n.Hostname
        = (NewNode E nodeID provisioner topology daemonResources instanceTypes).node.Hostname)
      (fun n t pod hn =>
        ⟨HostnamePinned.add E allowed hadd hcompat n hn.1 t pod,
          (Node.Add_hostname E n t pod).trans hn.2⟩)
      _ ⟨h0, rfl⟩ calls
  · intro n m hn hm hne a b ha hb
    unfold HostnamePinned at hn hm
    rw [hn] at ha
    rw [hm] at hb
    cases ha
    cases hb
    ext w
    simp only [Set.mem_inter_iff, Set.mem_singleton_iff, Set.mem_empty_iff_false, iff_false,
      not_and]
    intro h1 h2
    exact hne (h1.symm.trans h2)

end HostnamePin

namespace Demo

theorem foldl_narrow_of_no_key (key : String) (l : List NodeSelectorRequirement)
    (acc : Option (List String)) (h : ∀ q ∈ l, q.Key ≠ key) :
    l.foldl (narrow key) acc = acc := by
  induction l generalizing acc with
  | nil => rfl
  | cons q l ih =>
    have hq : q.Key ≠ key := h q (List.mem_cons_self _ _)
    simp only [List.foldl_cons]
    rw [ih _ (fun x hx => h x (List.mem_cons_of_mem _ hx))]
    simp [narrow, hq]

/-- On the concrete requirement sets, adding one `In` requirement intersects. -/
theorem add_of_in_is_intersection : AddOfInIsIntersection collaborators allowedSet := by
  intro r key values k
  show asSet (List.foldl (narrow k) none
      (r ++ [(⟨key, NodeSelectorOpIn, values⟩ : NodeSelectorRequirement)]))
    = intersectAllowed (asSet (List.foldl (narrow k) none r)) (allowedByIn key values k)
  rw [List.foldl_append, foldl_narrow_asSet]
  congr 1
  simp only [List.foldl_cons, List.foldl_nil, narrow, allowedByIn, and_true]
  by_cases h : key = k
  · subst h; simp [asSet]
  · have h' : ¬ k = key := fun e => h e.symm
    simp [asSet, h, h']

/-- The concrete `Compatible` returns `nil` only for sets with a common value for
every key both constrain. -/
theorem compatible_needs_common_values :
    CompatibleNeedsCommonValues collaborators allowedSet := by
  intro r other hc key a b ha hb
  change compatible r other = none at hc
  unfold allowedSet asSet at ha hb
  cases hra : allowed r key with
  | none => rw [hra] at ha; cases ha
  | some la =>
    cases hrb : allowed other key with
    | none => rw [hrb] at hb; cases hb
    | some lb =>
      rw [hra] at ha
      rw [hrb] at hb
      cases ha
      cases hb
      have hex : ∃ q ∈ other, q.Key = key := by
        by_contra hno
        push_neg at hno
        have := foldl_narrow_of_no_key key other none hno
        unfold allowed at hrb
        rw [this] at hrb
        cases hrb
      obtain ⟨q, hq, hkey⟩ := hex
      unfold compatible at hc
      split at hc
      · cases hc
      · rename_i hfind
        have := List.find?_eq_none.mp hfind q hq
        rw [hkey, hra, hrb] at this
        simp only [List.isEmpty_eq_true, List.filter_eq_nil_iff, not_forall,
          Bool.not_eq_true, Classical.not_imp] at this
        obtain ⟨v, hv1, hv2⟩ := this
        refine ⟨v, hv1, ?_⟩
        simpa using hv2

end Demo

/-- The concrete node, made from a template that constrains the zone only, after a
pod was admitted and another rejected: the hostname key allows the node's identity
and nothing else. -/
theorem hostname_stays_pinned_witness :
    AddIsPerKeyIntersection Demo.collaborators Demo.allowedSet ∧
    AddOfInIsIntersection Demo.collaborators Demo.allowedSet ∧
    CompatibleNeedsCommonValues Demo.collaborators Demo.allowedSet ∧
    Demo.allowedSet Demo.template.Spec.Requirements LabelHostname = none ∧
    Demo.allowedSet
        (Node.AddAll Demo.collaborators Demo.node
          [(Demo.nodeTracker, Demo.podSpread), (Demo.nodeTracker, Demo.podTooBig)]
        ).Provisioner.Spec.Requirements LabelHostname
      = some {Demo.node.Hostname} :=
  ⟨Demo.add_is_per_key_intersection, Demo.add_of_in_is_intersection,
   Demo.compatible_needs_common_values, rfl,
   ((hostname_stays_pinned Demo.collaborators Demo.allowedSet Demo.add_is_per_key_intersection
      Demo.add_of_in_is_intersection Demo.compatible_needs_common_values 0 Demo.template
      Demo.tracker 1 Demo.instanceTypes rfl).2.1
      [(Demo.nodeTracker, Demo.podSpread), (Demo.nodeTracker, Demo.podTooBig)]).1.trans
    (congrArg some (congrArg _
      ((hostname_stays_pinned Demo.collaborators Demo.allowedSet
        Demo.add_is_per_key_intersection Demo.add_of_in_is_intersection
        Demo.compatible_needs_common_values 0 Demo.template Demo.tracker 1
        Demo.instanceTypes rfl).2.1
        [(Demo.nodeTracker, Demo.podSpread), (Demo.nodeTracker, Demo.podTooBig)]).2))⟩

/-! ## The order of admission and the resource total -/

section Order

variable {T : Types} (E : Collaborators T)

/-- The resource total after any sequence of calls, for a node whose total accounts
for its pods. -/
theorem Node.AddAll_requests (baseline : T.ResourceList) (n : Node T)
    (hn : n.requests = accountedRequests E baseline n.Pods) (calls : List (T.Topology × T.Pod)) :
    (Node.AddAll E n calls).requests
      = accountedRequests E baseline (Node.AddAll E n calls).Pods := by
  refine Node.AddAll_induction E (fun n => n.requests = accountedRequests E baseline n.Pods)
    ?_ n hn calls
  intro n t pod hn
  rcases Node.Add_node E n t pod with ⟨_, hnode⟩ | ⟨_, tightened, _, hnode⟩
  · rw [hnode]; exact hn
  · rw [hnode]
    simp only [accountedRequests_append, Node.mergedRequests, hn]

theorem Node.Admitted_of_allAdmitted (n : Node T) (calls : List (T.Topology × T.Pod))
    (h : Node.AllAdmitted E n calls = true) : Node.Admitted E n calls = calls.map Prod.snd := by
  induction calls generalizing n with
  | nil => rfl
  | cons c calls ih =>
    obtain ⟨topology, pod⟩ := c
    simp only [Node.AllAdmitted, Bool.and_eq_true] at h
    simp only [Node.Admitted, h.1, if_true, List.map_cons, ih _ h.2]

theorem quantity_accountedRequests {Q : Type} [AddCommMonoid Q]
    (quantity : T.ResourceList → String → Q) (hmerge : MergeIsPerNameAddition E quantity)
    (baseline : T.ResourceList) (pods : List T.Pod) (name : String) :
    quantity (accountedRequests E baseline pods) name
      = quantity baseline name
          + (pods.map (fun pod => quantity (E.RequestsForPods pod) name)).sum := by
  induction pods generalizing baseline with
  | nil => simp [accountedRequests]
  | cons pod pods ih =>
    have : accountedRequests E baseline (pod :: pods)
        = accountedRequests E (E.Merge baseline (E.RequestsForPods pod)) pods := rfl
    rw [this, ih, hmerge, List.map_cons, List.sum_cons, add_assoc]

/-- C16, order independence of the resource total: let `resources.Merge` add
quantities per resource name.  If two nodes are made by `NewNode` with the same
baseline, one is offered a sequence of pods and the other the same pods in another
order, and every `Add` succeeds on both, then the two nodes end with the same
quantity of every resource, hence with equal resource totals when a resource list
is determined by its quantities. -/
theorem requests_independent_of_order {Q : Type} [AddCommMonoid Q]
    (quantity : T.ResourceList → String → Q) (hmerge : MergeIsPerNameAddition E quantity)
    (baseline : T.ResourceList)
    (nodeID1 nodeID2 : Int) (provisioner1 provisioner2 : Provisioner T)
    (topology1 topology2 : T.Topology) (instanceTypes1 instanceTypes2 : List T.InstanceType)
    (calls1 calls2 : List (T.Topology × T.Pod))
    (hperm : (calls1.map Prod.snd).Perm (calls2.map Prod.snd))
    (h1 : Node.AllAdmitted E
      (NewNode E nodeID1 provisioner1 topology1 baseline instanceTypes1).node calls1 = true)
    (h2 : Node.AllAdmitted E
      (NewNode E nodeID2 provisioner2 topology2 baseline instanceTypes2).node calls2 = true) :
    (∀ name,
      quantity (Node.AddAll E
          (NewNode E nodeID1 provisioner1 topology1 baseline instanceTypes1).node calls1).requests
          name
        = quantity (Node.AddAll E
          (NewNode E nodeID2 provisioner2 topology2 baseline instanceTypes2).node calls2).requests
          name) ∧
    (Function.Injective quantity →
      (Node.AddAll E
          (NewNode E nodeID1 provisioner1 topology1 baseline instanceTypes1).node calls1).requests
        = (Node.AddAll E
          (NewNode E nodeID2 provisioner2 topology2 baseline instanceTypes2).node calls2
          ).requests) := by
  have key : ∀ name,
      quantity (Node.AddAll E
          (NewNode E nodeID1 provisioner1 topology1 baseline instanceTypes1).node calls1).requests
          name
        = quantity (Node.AddAll E
          (NewNode E nodeID2 provisioner2 topology2 baseline instanceTypes2).node calls2).requests
          name := by
    intro name
    rw [Node.AddAll_requests E baseline _ rfl calls1, Node.AddAll_requests E baseline _ rfl calls2,
      Node.AddAll_pods, Node.AddAll_pods, Node.Admitted_of_allAdmitted E _ _ h1,
      Node.Admitted_of_allAdmitted E _ _ h2,
      quantity_accountedRequests E quantity hmerge, quantity_accountedRequests E quantity hmerge]
    show _ + (List.map _ ([] ++ calls1.map Prod.snd)).sum
      = _ + (List.map _ ([] ++ calls2.map Prod.snd)).sum
    rw [List.nil_append, List.nil_append]
    exact congrArg _ ((hperm.map _).sum_eq)
  exact ⟨key, fun hinj => hinj (funext key)⟩

end Order

/-- Two concrete nodes with baseline 1 CPU, one offered `podFits` then `podSpread`,
the other the two pods the other way round: both end with 5 CPU. -/
theorem requests_independent_of_order_witness :
    MergeIsPerNameAddition Demo.collaborators Demo.quantity ∧
    Node.AllAdmitted Demo.collaborators Demo.node
      [(Demo.nodeTracker, Demo.podFits), (Demo.nodeTracker, Demo.podSpread)] = true ∧
    Node.AllAdmitted Demo.collaborators Demo.nodeOfSeven
      [(Demo.nodeTracker, Demo.podSpread), (Demo.nodeTracker, Demo.podFits)] = true ∧
    (Node.AddAll Demo.collaborators Demo.node
        [(Demo.nodeTracker, Demo.podFits), (Demo.nodeTracker, Demo.podSpread)]).requests
      = (Node.AddAll Demo.collaborators Demo.nodeOfSeven
        [(Demo.nodeTracker, Demo.podSpread), (Demo.nodeTracker, Demo.podFits)]).requests :=
  have hmerge : MergeIsPerNameAddition Demo.collaborators Demo.quantity := by
    intro a b name
    show Demo.quantity (a + b) name = _
    unfold Demo.quantity
    split <;> rfl
  have hinj : Function.Injective Demo.quantity := by
    intro a b h
    have := congrFun h "cpu"
    simpa [Demo.quantity] using this
  ⟨hmerge, by decide, by decide,
   (requests_independent_of_order Demo.collaborators Demo.quantity hmerge 1 0 1 Demo.template
      Demo.template Demo.tracker Demo.nodeTracker Demo.instanceTypes Demo.sevenTypes
      [(Demo.nodeTracker, Demo.podFits), (Demo.nodeTracker, Demo.podSpread)]
      [(Demo.nodeTracker, Demo.podSpread), (Demo.nodeTracker, Demo.podFits)]
      (List.Perm.swap Demo.podSpread Demo.podFits []) (by decide) (by decide)).2 hinj⟩

/-! ## The capacity check -/

section Capacity

variable {T : Types} (E : Collaborators T)

/-- C17, filtering uses the merged total: with a filter that keeps exactly the
instance types whose CPU capacity is at least the requested total, a successful
`Add` leaves the node the options whose capacity is at least the merge of the node's
current total with the pod's requests, so it succeeds only if some current option
has that capacity; when no current option has it, `Add` fails and the node is
unchanged, and if the four earlier checks pass the error is the one built for an
empty filter result. -/
theorem add_filters_on_merged_total (capacity : T.InstanceType → Nat)
    (demand : T.ResourceList → Nat) (hfilter : FilterKeepsLargeEnough E capacity demand)
    (n : Node T) (topology : T.Topology) (pod : T.Pod) :
    ((Node.Add E n topology pod).err = none →
      (Node.Add E n topology pod).node.InstanceTypeOptions
          = n.InstanceTypeOptions.filter
              (fun it => decide (demand (E.Merge n.requests (E.RequestsForPods pod))
                ≤ capacity it)) ∧
      ∃ it ∈ n.InstanceTypeOptions,
        demand (E.Merge n.requests (E.RequestsForPods pod)) ≤ capacity it) ∧
    ((∀ it ∈ n.InstanceTypeOptions,
        capacity it < demand (E.Merge n.requests (E.RequestsForPods pod))) →
      (Node.Add E n topology pod).err ≠ none ∧ (Node.Add E n topology pod).node = n ∧
      (E.Tolerates n.Provisioner.Spec.Taints pod = none →
        E.Compatible n.Provisioner.Spec.Requirements (E.NewPodRequirements pod) = none →
        ∀ tightened, (Node.topologyStage E n topology pod).1 = .ok tightened →
        E.Compatible n.Provisioner.Spec.Requirements tightened = none →
        (Node.Add E n topology pod).err
          = some (.Errorf (noInstanceTypeMessage E n pod tightened)))) := by
  have hfiltered : ∀ tightened, Node.filteredInstanceTypes E n pod tightened
      = n.InstanceTypeOptions.filter
          (fun it => decide (demand (E.Merge n.requests (E.RequestsForPods pod))
            ≤ capacity it)) := fun tightened => hfilter _ _ _
  constructor
  · intro herr
    rcases Node.Add_node E n topology pod with ⟨hne, _⟩ | ⟨_, tightened, hnonempty, hnode⟩
    · exact absurd herr hne
    · rw [hnode]
      refine ⟨hfiltered tightened, ?_⟩
      rw [hfiltered] at hnonempty
      obtain ⟨it, hit⟩ := List.exists_mem_of_ne_nil _ hnonempty
      obtain ⟨hmem, hcap⟩ := List.mem_filter.mp hit
      exact ⟨it, hmem, by simpa using hcap⟩
  · intro hsmall
    have hempty : ∀ tightened, Node.filteredInstanceTypes E n pod tightened = [] := by
      intro tightened
      rw [hfiltered, List.filter_eq_nil_iff]
      intro it hit
      have := hsmall it hit
      simp only [decide_eq_true_eq]
      omega
    refine ⟨?_, ?_, ?_⟩
    · rcases Node.Add_node E n topology pod with ⟨hne, _⟩ | ⟨_, tightened, hnonempty, _⟩
      · exact hne
      · exact absurd (hempty tightened) hnonempty
    · rcases Node.Add_node E n topology pod with ⟨_, hnode⟩ | ⟨_, tightened, hnonempty, _⟩
      · exact hnode
      · exact absurd (hempty tightened) hnonempty
    · intro h1 h2 tightened h3 h4
      have h3' : Node.topologyStage E n topology pod
          = (.ok tightened, (Node.topologyStage E n topology pod).2) := by
        rw [← h3]
      rw [Node.Add_of_no_instance_type E n topology pod h1 h2 h3' h4 (hempty tightened)]

end Capacity

/-- The scenario of the specification: instance types of 2, 4 and 8 CPU, a current
total of 3 CPU and a pod that requests 6 CPU.  The merged total is 9 CPU, which no
type has, so `Add` fails with the error for an empty filter result and the node is
unchanged, although the 8 CPU type would hold the pod's 6 CPU alone. -/
theorem add_filters_on_merged_total_witness :
    FilterKeepsLargeEnough Demo.collaborators Demo.InstanceType.Cpu id ∧
    Demo.nodeOfThreeCpu.InstanceTypeOptions.map Demo.InstanceType.Cpu = [2, 4, 8] ∧
    Demo.nodeOfThreeCpu.requests = 3 ∧
    Demo.collaborators.RequestsForPods Demo.podSixCpu = 6 ∧
    Demo.collaborators.Merge Demo.nodeOfThreeCpu.requests
      (Demo.collaborators.RequestsForPods Demo.podSixCpu) = 9 ∧
    (Node.Add Demo.collaborators Demo.nodeOfThreeCpu Demo.nodeTracker Demo.podSixCpu).err
      = some (.Errorf (noInstanceTypeMessage Demo.collaborators Demo.nodeOfThreeCpu
          Demo.podSixCpu
          (Node.nodeRequirements Demo.collaborators Demo.nodeOfThreeCpu Demo.podSixCpu))) ∧
    (Node.Add Demo.collaborators Demo.nodeOfThreeCpu Demo.nodeTracker Demo.podSixCpu).node
      = Demo.nodeOfThreeCpu ∧
    Demo.collaborators.FilterInstanceTypes Demo.nodeOfThreeCpu.InstanceTypeOptions
        Demo.nodeOfThreeCpu.Provisioner.Spec.Requirements
        (Demo.collaborators.RequestsForPods Demo.podSixCpu)
      = [{ Name := "large", Cpu := 8 }] :=
  ⟨fun _ _ _ => rfl, by decide, by decide, by decide, by decide,
   ((add_filters_on_merged_total Demo.collaborators Demo.InstanceType.Cpu id
      (fun _ _ _ => rfl) Demo.nodeOfThreeCpu Demo.nodeTracker Demo.podSixCpu).2
      (by decide)).2.2 (by decide) (by decide) _ rfl (by decide),
   ((add_filters_on_merged_total Demo.collaborators Demo.InstanceType.Cpu id
      (fun _ _ _ => rfl) Demo.nodeOfThreeCpu Demo.nodeTracker Demo.podSixCpu).2
      (by decide)).2.1,
   by decide⟩

/-! ## The error for an empty filter result -/

section Message

variable {T : Types} (E : Collaborators T)

/-- C18, the message when no instance type is left: if the pod is tolerated, its
requirements are compatible with the node's, the tracker returns a tightened set,
that set is compatible with the node's requirements, and `FilterInstanceTypes`
returns an empty list, then `Add` returns the error whose message is
`"no instance type satisfied resources X and requirements R"`, where `X` is
`resources.String` of the pod's requests and `R` is the rendering of the set passed
to the filter, the node's current requirements with the tightened set added. -/
theorem add_no_instance_type_message (n : Node T) (topology : T.Topology) (pod : T.Pod)
    (tightened : T.ReqSet)
    (h1 : E.Tolerates n.Provisioner.Spec.Taints pod = none)
    (h2 : E.Compatible n.Provisioner.Spec.Requirements (E.NewPodRequirements pod) = none)
    (h3 : (E.AddRequirements topology (E.NewPodRequirements pod)
            (E.Add n.Provisioner.Spec.Requirements (E.Requirements (E.NewPodRequirements pod)))
            pod).1 = .ok tightened)
    (h4 : E.Compatible n.Provisioner.Spec.Requirements tightened = none)
    (h5 : E.FilterInstanceTypes n.InstanceTypeOptions
            (E.Add n.Provisioner.Spec.Requirements (E.Requirements tightened))
            (E.Merge n.requests (E.RequestsForPods pod)) = []) :
    (Node.Add E n topology pod).err
      = some (.Errorf ("no instance type satisfied resources "
          ++ E.ResourcesString (E.RequestsForPods pod)
          ++ " and requirements "
          ++ E.FormatRequirements
              (E.Add n.Provisioner.Spec.Requirements (E.Requirements tightened)))) := by
  have h3' : Node.topologyStage E n topology pod
      = (.ok tightened, (Node.topologyStage E n topology pod).2) := by
    have h3'' : (Node.topologyStage E n topology pod).1 = .ok tightened := h3
    rw [← h3'']
  rw [Node.Add_of_no_instance_type E n topology pod h1 h2 h3' h4 h5]
  rfl

end Message

/-- The pod of 6 CPU on the concrete node with a total of 3 CPU: the message names
the pod's 6 CPU, not the merged 9 CPU the filter was given. -/
theorem add_no_instance_type_message_witness :
    (Node.Add Demo.collaborators Demo.nodeOfThreeCpu Demo.nodeTracker Demo.podSixCpu).err
      = some (.Errorf ("no instance type satisfied resources 6 cpu and requirements "
          ++ "zone, kubernetes.io/hostname, zone, kubernetes.io/hostname")) :=
  (add_no_instance_type_message Demo.collaborators Demo.nodeOfThreeCpu Demo.nodeTracker
    Demo.podSixCpu _ (by decide) (by decide) rfl (by decide) (by decide)).trans (by decide)

end Scheduling
